import Mathlib

/-
Verification of the bridge-mcp adapter (src/bridge_mcp).

The development shallowly embeds the Python source:
- `PyVal` models the Python values that flow through the adapter
  (None, bool, int, float, str, list, tuple, dict).  Python floats are
  abstracted as rationals (ℚ); their decimal rendering is abstracted by
  `showQ` / `show0f`, which need not match CPython digit-for-digit — no
  claim below depends on the rendering of a number.
- Exceptions are modelled by `Exc` (a kind plus the message that
  `str(e)` would produce).  `except Exception` blocks are modelled as
  catching every `Exc`.
- Effectful code is modelled by `Prog c α`: a computation that reads an
  oracle assigning a result (a value or a raised exception) to each
  outgoing call, returns `Except Exc α`, and records the trace of calls
  it actually issued, in order.
- `QtModelProvider.run` embeds providers/qtmodel_provider.py: each
  provider operation is a program over vendor calls (`VCall`, a method
  of the vendor `mdb`/`odb`/`cdb` objects).
- `toolBody`/`runTool` embed the registered MCP tool handlers: each is
  a program over provider calls (`PCall`, a `BridgeProvider` method, or
  an `os.` filesystem operation of the visualization module).
- The prompt functions of prompts/__init__.py are embedded by
  `promptText`.
-/

namespace BridgeMCP

/-- Python values as used by the adapter.  Floats are abstracted as ℚ. -/
inductive PyVal where
  | none : PyVal
  | bool : Bool → PyVal
  | int : Int → PyVal
  | rat : ℚ → PyVal
  | str : String → PyVal
  | list : List PyVal → PyVal
  | tuple : List PyVal → PyVal
  | dict : List (String × PyVal) → PyVal

/-- Python truthiness (`bool(v)`), restricted to the embedded values. -/
def PyVal.truthy : PyVal → Bool
  | .none => false
  | .bool b => b
  | .int n => n != 0
  | .rat q => q != 0
  | .str s => s != ""
  | .list l => !l.isEmpty
  | .tuple l => !l.isEmpty
  | .dict l => !l.isEmpty

/-- Exception classes distinguished by the embedded code. -/
inductive ExcKind where
  | runtimeError
  | notImplementedError
  | valueError
  | typeError
  | keyError
  | indexError
  | zeroDivisionError
  | otherError : String → ExcKind

/-- A raised Python exception: its class and the text `str(e)` yields. -/
structure Exc where
  kind : ExcKind
  msg : String

/--
A computation against an oracle for calls of type `c`: it returns either
a value or a raised exception, together with the ordered trace of calls
it issued before returning.  This embeds straight-line Python code whose
only effects are outgoing calls and exceptions.
-/
def Prog (c : Type) (α : Type) : Type :=
  (c → Except Exc PyVal) → Except Exc α × List c

def Prog.pure {c α : Type} (a : α) : Prog c α := fun _ => (.ok a, [])

def Prog.bind {c α β : Type} (p : Prog c α) (f : α → Prog c β) : Prog c β :=
  fun o =>
    match p o with
    | (.ok a, t) => ((f a o).1, t ++ (f a o).2)
    | (.error e, t) => (.error e, t)

instance {c : Type} : Monad (Prog c) where
  pure := Prog.pure
  bind := Prog.bind

/-- `raise e` -/
def Prog.fail {c α : Type} (e : Exc) : Prog c α := fun _ => (.error e, [])

/-- Issue one call and return the oracle's answer for it. -/
def Prog.call {c : Type} (x : c) : Prog c PyVal := fun o => (o x, [x])

/--
`try: p except Exception: h e` — the calls `p` issued before raising
remain in the trace, as the side effects of a Python try block do.
-/
def Prog.tryCatch {c α : Type} (p : Prog c α) (h : Exc → Prog c α) :
    Prog c α :=
  fun o =>
    match p o with
    | (.ok a, t) => (.ok a, t)
    | (.error e, t) => ((h e o).1, t ++ (h e o).2)

/-- Lift a pure fallible step (subscript, `len`, division, …). -/
def Prog.lift {c α : Type} (r : Except Exc α) : Prog c α := fun _ => (r, [])

theorem Prog.bind_eq {c α β : Type} (p : Prog c α) (f : α → Prog c β) :
    p >>= f = Prog.bind p f := rfl

theorem Prog.pure_eq {c α : Type} (a : α) :
    (pure a : Prog c α) = Prog.pure a := rfl

/-- `len(v)`; raises `TypeError` on unsized values. -/
def pyLen : PyVal → Except Exc Nat
  | .str s => .ok s.length
  | .list l => .ok l.length
  | .tuple l => .ok l.length
  | .dict l => .ok l.length
  | _ => .error ⟨.typeError, "object has no len()"⟩

/-- `v[:5]`; raises `TypeError` when `v` is not sliceable. -/
def pySlice5 : PyVal → Except Exc PyVal
  | .str s => .ok (.str (s.take 5))
  | .list l => .ok (.list (l.take 5))
  | .tuple l => .ok (.tuple (l.take 5))
  | _ => .error ⟨.typeError, "object is not subscriptable"⟩

/-- `v[k]` for a string key; `KeyError` when missing, `TypeError` when not a dict. -/
def pyGetItemStr (v : PyVal) (k : String) : Except Exc PyVal :=
  match v with
  | .dict l =>
    match l.lookup k with
    | some x => .ok x
    | Option.none => .error ⟨.keyError, k⟩
  | _ => .error ⟨.typeError, "object is not subscriptable"⟩

/-- `v.get(k, d)`; raises when `v` is not a dict (no `get` attribute). -/
def pyDictGet (v : PyVal) (k : String) (d : PyVal) : Except Exc PyVal :=
  match v with
  | .dict l =>
    match l.lookup k with
    | some x => .ok x
    | Option.none => .ok d
  | _ => .error ⟨.otherError "AttributeError", "object has no attribute get"⟩

/-- `v[0]`; `IndexError` on an empty sequence, `TypeError` when unindexable. -/
def pyIndex0 : PyVal → Except Exc PyVal
  | .list (x :: _) => .ok x
  | .list [] => .error ⟨.indexError, "list index out of range"⟩
  | .tuple (x :: _) => .ok x
  | .tuple [] => .error ⟨.indexError, "tuple index out of range"⟩
  | .str s =>
    if s = "" then .error ⟨.indexError, "string index out of range"⟩
    else .ok (.str (s.take 1))
  | _ => .error ⟨.typeError, "object is not subscriptable"⟩

/-- `v == n` for an integer literal `n` (Python numeric cross-type equality). -/
def pyEqInt (v : PyVal) (n : Int) : Bool :=
  match v with
  | .int m => m == n
  | .bool b => (cond b 1 0 : Int) == n
  | .rat q => q == (n : ℚ)
  | _ => false

/-- `a / b` on floats; raises `ZeroDivisionError`. -/
def pyDiv (a b : ℚ) : Except Exc ℚ :=
  if b = 0 then .error ⟨.zeroDivisionError, "float division by zero"⟩
  else .ok (a / b)

/-- `x or y` (used for the provider's `... or []` / `... or {}` defaults). -/
def pyOr (x y : PyVal) : PyVal := if x.truthy then x else y

/--
Rendering of a Python float, abstracted: integral values render as
`n.0` like CPython, other rationals as `num/den` (CPython would print a
decimal expansion; no claim depends on this difference).
-/
def showQ (q : ℚ) : String :=
  if q.den = 1 then toString q.num ++ ".0" else toString q.num ++ "/" ++ toString q.den

/-- `f"{q:.0f}"`, abstracted to round-to-nearest (ties may differ from CPython). -/
def show0f (q : ℚ) : String := toString (round q)

mutual

/-- `repr(v)`, as interpolated for values nested in containers. -/
def pyRepr : PyVal → String
  | .none => "None"
  | .bool b => cond b "True" "False"
  | .int n => toString n
  | .rat q => showQ q
  | .str s => "'" ++ s ++ "'"
  | .list l => "[" ++ pyReprList l ++ "]"
  | .tuple l => "(" ++ pyReprList l ++ ")"
  | .dict l => "\x7b" ++ pyReprPairs l ++ "\x7d"

def pyReprList : List PyVal → String
  | [] => ""
  | [x] => pyRepr x
  | x :: y :: xs => pyRepr x ++ ", " ++ pyReprList (y :: xs)

def pyReprPairs : List (String × PyVal) → String
  | [] => ""
  | [(k, v)] => "'" ++ k ++ "': " ++ pyRepr v
  | (k, v) :: y :: xs => "'" ++ k ++ "': " ++ pyRepr v ++ ", " ++ pyReprPairs (y :: xs)

end

/-- `str(v)` / `f"{v}"`: like `repr` but strings render without quotes. -/
def pyStr : PyVal → String
  | .str s => s
  | v => pyRepr v

/-- Substring test on character lists (needle occurs somewhere in haystack). -/
def listContainsSub (needle : List Char) : List Char → Bool
  | [] => needle.isEmpty
  | x :: xs => needle.isPrefixOf (x :: xs) || listContainsSub needle xs

/-- `needle in hay` for strings. -/
def strContainsB (hay needle : String) : Bool :=
  listContainsSub needle.data hay.data

/-- `hay.startswith(pre)` for strings, on character lists. -/
def strIsPrefixOfB (pre hay : String) : Bool :=
  pre.data.isPrefixOf hay.data

theorem isPrefixOf_refl_char (l : List Char) : l.isPrefixOf l = true := by
  induction l with
  | nil => rfl
  | cons x xs ih => simp [List.isPrefixOf, ih]

theorem listContainsSub_append (l₁ l₂ : List Char) :
    listContainsSub l₂ (l₁ ++ l₂) = true := by
  induction l₁ with
  | nil =>
    cases l₂ with
    | nil => rfl
    | cons x xs => simp [listContainsSub, isPrefixOf_refl_char]
  | cons x xs ih => simp [listContainsSub, ih]

/-- A string always contains its own suffix: `a ++ b` contains `b`. -/
theorem strContainsB_append_right (a b : String) :
    strContainsB (a ++ b) b = true := by
  show listContainsSub b.data (a ++ b).data = true
  have h : (a ++ b).data = a.data ++ b.data := rfl
  rw [h]
  exact listContainsSub_append a.data b.data

/--
The vendor API object a call goes through.  The `qtmodel` package
exposes `mdb`, `odb` and `cdb`; `QtModelProvider.__init__` binds only
`mdb` and `odb`, and no method of the provider ever constructs a `cdb`
call — `cdb` is included here so that claims about it can be stated.
-/
inductive VObj where
  | mdb
  | odb
  | cdb

/-- One call against the vendor API: object, method, keyword arguments
(positional arguments are recorded under their parameter name). -/
structure VCall where
  obj : VObj
  method : String
  kwargs : List (String × PyVal)

/-- A provider-method body: a program issuing vendor calls. -/
abbrev VProg (α : Type) : Type := Prog VCall α

namespace QtModelProvider

/-- The provider state set up by `__init__`/`_try_import`: whether the
import/connection succeeded, and the recorded reason when it did not. -/
structure State where
  available : Bool
  unavailable_reason : String

/-- `self._require_available()`. -/
def require_available (st : State) : VProg Unit :=
  if st.available then Prog.pure ()
  else Prog.fail ⟨.runtimeError,
    "qtmodel provider unavailable: " ++ st.unavailable_reason⟩

/-- `self._odb.m(kwargs)` -/
def odbCall (m : String) (k : List (String × PyVal)) : VProg PyVal :=
  Prog.call ⟨.odb, m, k⟩

/-- `self._mdb.m(kwargs)` -/
def mdbCall (m : String) (k : List (String × PyVal)) : VProg PyVal :=
  Prog.call ⟨.mdb, m, k⟩

/--
The operations of `QtModelProvider` (every method of the class except
the `name`/`version` properties and `is_available`, which do not touch
the vendor API and have no `_require_available` guard).
-/
inductive Op where
  | get_model_summary
  | get_node_data (ids : Option PyVal)
  | get_element_data (ids : Option PyVal)
  | get_material_data
  | get_section_data (sec_id : Int) (position : Int)
  | get_section_names
  | get_boundary_data
  | get_load_case_names
  | get_stage_names
  | get_structure_group_names
  | add_nodes (node_data : PyVal) (kw : List (String × PyVal))
  | add_elements (ele_data : PyVal) (kw : List (String × PyVal))
  | add_material (name : String) (mat_type : Int) (standard : Int)
      (database : String) (kw : List (String × PyVal))
  | add_section (name : String) (sec_type : String) (kw : List (String × PyVal))
  | add_general_support (node_id : PyVal) (boundary_info : PyVal)
      (kw : List (String × PyVal))
  | add_elastic_link (link_type : Int) (start_id : Int) (end_id : Int)
      (kw : List (String × PyVal))
  | add_nodal_force (node_id : PyVal) (case_name : String) (load_info : PyVal)
      (kw : List (String × PyVal))
  | add_beam_element_load (element_id : PyVal) (case_name : String)
      (load_type : Int) (kw : List (String × PyVal))
  | add_tendon_property (name : String) (tendon_type : Int)
      (kw : List (String × PyVal))
  | add_tendon_2d (name : String) (property_name : String)
      (kw : List (String × PyVal))
  | add_pre_stress (case_name : String) (tendon_name : String) (force : ℚ)
      (kw : List (String × PyVal))
  | add_construction_stage (name : String) (duration : ℚ)
      (kw : List (String × PyVal))
  | merge_all_stages (name : String) (kw : List (String × PyVal))
  | update_project_setting (kw : List (String × PyVal))
  | update_construction_stage_setting (kw : List (String × PyVal))
  | update_self_vibration_setting (kw : List (String × PyVal))
  | get_deformation (ids : PyVal) (stage_id : Int) (kw : List (String × PyVal))
  | get_element_force (ids : PyVal) (stage_id : Int) (kw : List (String × PyVal))
  | get_element_stress (ids : PyVal) (stage_id : Int) (kw : List (String × PyVal))
  | get_reaction (ids : PyVal) (stage_id : Int) (kw : List (String × PyVal))
  | save_model_image (file_path : String)
  | plot_result (result_type : String) (file_path : String)
      (kw : List (String × PyVal))
  | validate_model
  | add_check_load_combine (name : String) (standard : Int) (kind : Int)
      (kw : List (String × PyVal))
  | solve_concrete_check (name : String)
  | add_concrete_check_case (name : String) (standard : Int)
      (structure_type : Int) (group_name : String)
  | add_parameter_reinforcement (sec_id : Int) (kw : List (String × PyVal))
  | add_structure_group (name : String)
  | add_elements_to_structure_group (name : String) (element_ids : PyVal)
  | get_structure_group_elements (name : String)
  | add_boundary_group (name : String)
  | add_load_group (name : String)
  | add_master_slave_link (master_id : Int) (slave_ids : PyVal)
      (kw : List (String × PyVal))
  | add_elastic_support (node_id : PyVal) (spring_values : PyVal)
      (kw : List (String × PyVal))
  | add_standard_vehicle (name : String) (vehicle_type : Int) (standard : Int)
  | add_lane (name : String) (kw : List (String × PyVal))
  | add_live_load_case (name : String) (kw : List (String × PyVal))
  | get_live_load_results (case_name : String) (result_type : String) (ids : PyVal)
  | add_self_weight (case_name : String) (kw : List (String × PyVal))
  | get_tendon_data
  | set_view_angle (horizontal : ℚ) (vertical : ℚ)

/-- `len(v) if isinstance(v, list) else 0` — the count fields of
`get_model_summary`. -/
def lenIfList (v : PyVal) : PyVal :=
  match v with
  | .list l => .int l.length
  | _ => .int 0

/-- Body of `get_model_summary` after its `_require_available` guard. -/
def summaryBody : VProg PyVal := do
  let nodes ← odbCall "get_node_data" []
  let elements ← odbCall "get_element_data" []
  let materials ← odbCall "get_material_data" []
  let sections ← odbCall "get_section_names" []
  let stages ← odbCall "get_stage_names" []
  let load_cases ← odbCall "get_load_case_names" []
  let groups ← odbCall "get_structure_group_names" []
  let boundaries ← odbCall "get_boundary_group_names" []
  Prog.pure (.dict
    [("node_count", lenIfList nodes),
     ("element_count", lenIfList elements),
     ("material_count", lenIfList materials),
     ("section_count", lenIfList sections),
     ("stage_count", lenIfList stages),
     ("load_case_count", lenIfList load_cases),
     ("structure_group_count", lenIfList groups),
     ("boundary_group_count", lenIfList boundaries)])

/-- `self.get_model_summary()` (guard included: the method re-checks). -/
def get_model_summary (st : State) : VProg PyVal := do
  require_available st
  summaryBody

/-- `[r]` when dict, the list itself when list, `[]` otherwise — the
reshaping done by `get_node_data`/`get_element_data`. -/
def reshapeQuery (result : PyVal) : PyVal :=
  match result with
  | .dict d => .list [.dict d]
  | .list l => .list l
  | _ => .list []

/-- Shared body of `get_node_data`/`get_element_data` (`m` names the
vendor method). -/
def nodeElemQuery (m : String) (ids : Option PyVal) : VProg PyVal := do
  let result ←
    match ids with
    | some v => odbCall m [("ids", v)]
    | Option.none => odbCall m []
  Prog.pure (reshapeQuery result)

/-- The nine entries of `plot_result`'s `plot_methods` dict
(result-type key ↦ `odb` method; building the dict only accesses the
method attributes, it calls nothing). -/
def plotMethods : List (String × String) :=
  [("displacement", "plot_displacement_result"),
   ("reaction", "plot_reaction_result"),
   ("beam_force", "plot_beam_element_force"),
   ("beam_stress", "plot_beam_element_stress"),
   ("truss_force", "plot_truss_element_force"),
   ("truss_stress", "plot_truss_element_stress"),
   ("plate_force", "plot_plate_element_force"),
   ("plate_stress", "plot_plate_element_stress"),
   ("modal", "plot_modal_result")]

/-- `f"Unknown result_type '{result_type}'. Available types: {list(plot_methods.keys())}"` -/
def plotUnknownMsg (result_type : String) : String :=
  "Unknown result_type '" ++ result_type ++ "'. Available types: ['displacement', 'reaction', 'beam_force', 'beam_stress', 'truss_force', 'truss_stress', 'plate_force', 'plate_stress', 'modal']"

/-- Body of `plot_result` after its guard. -/
def plotResultBody (result_type : String) (file_path : String)
    (kw : List (String × PyVal)) : VProg PyVal :=
  match plotMethods.lookup result_type with
  | Option.none => Prog.fail ⟨.valueError, plotUnknownMsg result_type⟩
  | some m => odbCall m (("file_path", .str file_path) :: kw)

/-- The message of the `NotImplementedError` raised by the four
structural-checking methods. -/
def cdbNotImplementedMsg : String :=
  "Structural checking (CDB) is not yet supported in this qtmodel version."

/-- Body of `validate_model` after its guard. -/
def validateBody (st : State) : VProg PyVal := do
  let overlap_nodes ← odbCall "get_overlap_nodes" []
  let warnings1 : List String ←
    if overlap_nodes.truthy then do
      let n ← Prog.lift (pyLen overlap_nodes)
      let s ← Prog.lift (pySlice5 overlap_nodes)
      Prog.pure ["Found " ++ toString n ++ " groups of overlapping nodes (发现 " ++
        toString n ++ " 组重合节点): " ++ pyStr s ++ "..."]
    else Prog.pure []
  let overlap_elements ← odbCall "get_overlap_elements" []
  let warnings2 : List String ←
    if overlap_elements.truthy then do
      let n ← Prog.lift (pyLen overlap_elements)
      let s ← Prog.lift (pySlice5 overlap_elements)
      Prog.pure (warnings1 ++ ["Found " ++ toString n ++
        " groups of overlapping elements (发现 " ++ toString n ++
        " 组重合单元): " ++ pyStr s ++ "..."])
    else Prog.pure warnings1
  let summary ← get_model_summary st
  let nc ← Prog.lift (pyGetItemStr summary "node_count")
  let errors1 : List String :=
    if pyEqInt nc 0 then ["Model has no nodes (模型无节点)"] else []
  let ec ← Prog.lift (pyGetItemStr summary "element_count")
  let errors2 : List String :=
    if pyEqInt ec 0 then errors1 ++ ["Model has no elements (模型无单元)"] else errors1
  let mc ← Prog.lift (pyGetItemStr summary "material_count")
  let errors3 : List String :=
    if pyEqInt mc 0 then errors2 ++ ["Model has no materials (模型无材料)"] else errors2
  Prog.pure (.dict
    [("is_valid", .bool errors3.isEmpty),
     ("errors", .list (errors3.map PyVal.str)),
     ("warnings", .list (warnings2.map PyVal.str)),
     ("summary", summary)])

/-- Body of `get_live_load_results` after its guard. -/
def liveLoadBody (case_name : String) (result_type : String) (ids : PyVal) :
    VProg PyVal :=
  if result_type = "force" then
    odbCall "get_element_force"
      [("ids", ids), ("stage_id", .int (-1)), ("case_name", .str case_name)]
  else if result_type = "stress" then
    odbCall "get_element_stress"
      [("ids", ids), ("stage_id", .int (-1)), ("case_name", .str case_name)]
  else if result_type = "deformation" then
    odbCall "get_deformation"
      [("ids", ids), ("stage_id", .int (-1)), ("case_name", .str case_name)]
  else
    odbCall "get_element_force"
      [("ids", ids), ("stage_id", .int (-1)), ("case_name", .str case_name)]

/-- Body of one provider operation, without its `_require_available`
guard (which `run` below places in front, as every method's first line). -/
def body (st : State) : Op → VProg PyVal
  | .get_model_summary => summaryBody
  | .get_node_data ids => nodeElemQuery "get_node_data" ids
  | .get_element_data ids => nodeElemQuery "get_element_data" ids
  | .get_material_data => do
    let r ← odbCall "get_material_data" []
    Prog.pure (pyOr r (.list []))
  | .get_section_data sec_id position => do
    let r ← odbCall "get_section_data"
      [("sec_id", .int sec_id), ("position", .int position)]
    Prog.pure (pyOr r (.dict []))
  | .get_section_names => do
    let r ← odbCall "get_section_names" []
    Prog.pure (pyOr r (.list []))
  | .get_boundary_data => do
    let gs ← odbCall "get_general_support_data" []
    let el ← odbCall "get_elastic_link_data" []
    let es ← odbCall "get_elastic_support_data" []
    let ms ← odbCall "get_master_slave_link_data" []
    let bc ← odbCall "get_beam_constraint_data" []
    Prog.pure (.dict
      [("general_supports", pyOr gs (.list [])),
       ("elastic_links", pyOr el (.list [])),
       ("elastic_supports", pyOr es (.list [])),
       ("master_slave_links", pyOr ms (.list [])),
       ("beam_constraints", pyOr bc (.list []))])
  | .get_load_case_names => do
    let r ← odbCall "get_load_case_names" []
    Prog.pure (pyOr r (.list []))
  | .get_stage_names => do
    let r ← odbCall "get_stage_names" []
    Prog.pure (pyOr r (.list []))
  | .get_structure_group_names => do
    let r ← odbCall "get_structure_group_names" []
    Prog.pure (pyOr r (.list []))
  | .add_nodes node_data kw => mdbCall "add_nodes" (("node_data", node_data) :: kw)
  | .add_elements ele_data kw => mdbCall "add_elements" (("ele_data", ele_data) :: kw)
  | .add_material name mat_type standard database kw =>
    mdbCall "add_material"
      ([("name", .str name), ("mat_type", .int mat_type), ("standard", .int standard)]
        ++ (if database ≠ "" then [("database", .str database)] else []) ++ kw)
  | .add_section name sec_type kw =>
    mdbCall "add_section" (("name", .str name) :: ("sec_type", .str sec_type) :: kw)
  | .add_general_support node_id boundary_info kw =>
    mdbCall "add_general_support"
      (("node_id", node_id) :: ("boundary_info", boundary_info) :: kw)
  | .add_elastic_link link_type start_id end_id kw =>
    mdbCall "add_elastic_link"
      (("link_type", .int link_type) :: ("start_id", .int start_id)
        :: ("end_id", .int end_id) :: kw)
  | .add_nodal_force node_id case_name load_info kw =>
    mdbCall "add_nodal_force"
      (("node_id", node_id) :: ("case_name", .str case_name)
        :: ("load_info", load_info) :: kw)
  | .add_beam_element_load element_id case_name load_type kw =>
    mdbCall "add_beam_element_load"
      (("element_id", element_id) :: ("case_name", .str case_name)
        :: ("load_type", .int load_type) :: kw)
  | .add_tendon_property name tendon_type kw =>
    mdbCall "add_tendon_property"
      (("name", .str name) :: ("tendon_type", .int tendon_type) :: kw)
  | .add_tendon_2d name property_name kw =>
    mdbCall "add_tendon_2d"
      (("name", .str name) :: ("property_name", .str property_name) :: kw)
  | .add_pre_stress case_name tendon_name force kw =>
    mdbCall "add_pre_stress"
      (("case_name", .str case_name) :: ("tendon_name", .str tendon_name)
        :: ("force", .rat force) :: kw)
  | .add_construction_stage name duration kw =>
    mdbCall "add_construction_stage"
      (("name", .str name) :: ("duration", .rat duration) :: kw)
  | .merge_all_stages name kw => mdbCall "merge_all_stages" (("name", .str name) :: kw)
  | .update_project_setting kw => mdbCall "update_project_setting" kw
  | .update_construction_stage_setting kw =>
    mdbCall "update_construction_stage_setting" kw
  | .update_self_vibration_setting kw => mdbCall "update_self_vibration_setting" kw
  | .get_deformation ids stage_id kw =>
    odbCall "get_deformation" (("ids", ids) :: ("stage_id", .int stage_id) :: kw)
  | .get_element_force ids stage_id kw =>
    odbCall "get_element_force" (("ids", ids) :: ("stage_id", .int stage_id) :: kw)
  | .get_element_stress ids stage_id kw =>
    odbCall "get_element_stress" (("ids", ids) :: ("stage_id", .int stage_id) :: kw)
  | .get_reaction ids stage_id kw =>
    odbCall "get_reaction" (("ids", ids) :: ("stage_id", .int stage_id) :: kw)
  | .save_model_image file_path => odbCall "save_png" [("file_path", .str file_path)]
  | .plot_result result_type file_path kw => plotResultBody result_type file_path kw
  | .validate_model => validateBody st
  | .add_check_load_combine _ _ _ _ => Prog.fail ⟨.notImplementedError, cdbNotImplementedMsg⟩
  | .solve_concrete_check _ => Prog.fail ⟨.notImplementedError, cdbNotImplementedMsg⟩
  | .add_concrete_check_case _ _ _ _ => Prog.fail ⟨.notImplementedError, cdbNotImplementedMsg⟩
  | .add_parameter_reinforcement _ _ => Prog.fail ⟨.notImplementedError, cdbNotImplementedMsg⟩
  | .add_structure_group name => mdbCall "add_structure_group" [("name", .str name)]
  | .add_elements_to_structure_group name element_ids =>
    mdbCall "add_structure_to_group" [("name", .str name), ("element_ids", element_ids)]
  | .get_structure_group_elements name => do
    let r ← odbCall "get_group_elements" [("name", .str name)]
    Prog.pure (pyOr r (.list []))
  | .add_boundary_group name => mdbCall "add_boundary_group" [("name", .str name)]
  | .add_load_group name => mdbCall "add_load_group" [("name", .str name)]
  | .add_master_slave_link master_id slave_ids kw =>
    mdbCall "add_master_slave_link"
      (("master_id", .int master_id) :: ("slave_ids", slave_ids) :: kw)
  | .add_elastic_support node_id spring_values kw =>
    mdbCall "add_elastic_support"
      (("node_id", node_id) :: ("spring_values", spring_values) :: kw)
  | .add_standard_vehicle name vehicle_type standard =>
    mdbCall "add_standard_vehicle"
      [("name", .str name), ("vehicle_type", .int vehicle_type),
       ("standard", .int standard)]
  | .add_lane name kw => mdbCall "add_lane_line" (("name", .str name) :: kw)
  | .add_live_load_case name kw => mdbCall "add_live_load_case" (("name", .str name) :: kw)
  | .get_live_load_results case_name result_type ids =>
    liveLoadBody case_name result_type ids
  | .add_self_weight case_name _ =>
    Prog.tryCatch
      (mdbCall "add_load_case" [("name", .str case_name), ("case_type", .int 1)])
      (fun _ => Prog.pure .none)
  | .get_tendon_data => do
    let r ← odbCall "get_tendon_data" []
    Prog.pure (pyOr r (.list []))
  | .set_view_angle horizontal vertical =>
    odbCall "set_view_camera"
      [("horizontal", .rat horizontal), ("vertical", .rat vertical)]

/-- One provider-method invocation: the `_require_available` guard that
every method's first line performs, then the method body. -/
def run (st : State) (op : Op) : VProg PyVal := do
  require_available st
  body st op

end QtModelProvider

mutual

/-- Python `==` on the embedded values (numeric kinds compare by value;
dict comparison is abstracted as order-sensitive, which no embedded
code path depends on). -/
def pyEqB : PyVal → PyVal → Bool
  | .none, .none => true
  | .bool a, .bool b => a == b
  | .bool a, .int b => (cond a 1 0 : Int) == b
  | .bool a, .rat b => ((cond a 1 0 : Int) : ℚ) == b
  | .int a, .bool b => a == (cond b 1 0 : Int)
  | .int a, .int b => a == b
  | .int a, .rat b => (a : ℚ) == b
  | .rat a, .bool b => a == ((cond b 1 0 : Int) : ℚ)
  | .rat a, .int b => a == (b : ℚ)
  | .rat a, .rat b => a == b
  | .str a, .str b => a == b
  | .list a, .list b => pyEqList a b
  | .tuple a, .tuple b => pyEqList a b
  | .dict a, .dict b => pyEqPairs a b
  | _, _ => false

def pyEqList : List PyVal → List PyVal → Bool
  | [], [] => true
  | x :: xs, y :: ys => pyEqB x y && pyEqList xs ys
  | _, _ => false

def pyEqPairs : List (String × PyVal) → List (String × PyVal) → Bool
  | [], [] => true
  | (k, v) :: xs, (k2, v2) :: ys => k == k2 && pyEqB v v2 && pyEqPairs xs ys
  | _, _ => false

end

/-- `iter(v)` as a list of elements (`TypeError` on non-iterables;
strings iterate their characters, dicts their keys). -/
def pyIterList : PyVal → Except Exc (List PyVal)
  | .list l => .ok l
  | .tuple l => .ok l
  | .str s => .ok (s.data.map (fun ch => .str (String.mk [ch])))
  | .dict l => .ok (l.map (fun kv => .str kv.1))
  | _ => .error ⟨.typeError, "object is not iterable"⟩

/-- `item in container` (Python membership on lists/tuples/dict keys;
substring test on strings). -/
def pyContains (container item : PyVal) : Except Exc Bool :=
  match container with
  | .list l => .ok (l.any (pyEqB item))
  | .tuple l => .ok (l.any (pyEqB item))
  | .dict l => .ok (l.any (fun kv => pyEqB item (.str kv.1)))
  | .str s =>
    match item with
    | .str sub => .ok (strContainsB s sub)
    | _ => .error ⟨.typeError, "in <string> requires string as left operand"⟩
  | _ => .error ⟨.typeError, "argument is not a container"⟩

/-- `v[i]` for a nonnegative index. -/
def pyIndexN (v : PyVal) (i : Nat) : Except Exc PyVal :=
  match v with
  | .list l =>
    match l.get? i with
    | some x => .ok x
    | Option.none => .error ⟨.indexError, "list index out of range"⟩
  | .tuple l =>
    match l.get? i with
    | some x => .ok x
    | Option.none => .error ⟨.indexError, "tuple index out of range"⟩
  | .str s =>
    match s.data.get? i with
    | some ch => .ok (.str (String.mk [ch]))
    | Option.none => .error ⟨.indexError, "string index out of range"⟩
  | _ => .error ⟨.typeError, "object is not subscriptable"⟩

/-- `tuple(v)`. -/
def pyToTuple : PyVal → Except Exc PyVal
  | .list l => .ok (.tuple l)
  | .tuple l => .ok (.tuple l)
  | .str s => .ok (.tuple (s.data.map (fun ch => .str (String.mk [ch]))))
  | .dict l => .ok (.tuple (l.map (fun kv => .str kv.1)))
  | _ => .error ⟨.typeError, "object is not iterable"⟩

/-- `v.keys()` as a string list. -/
def pyKeys : PyVal → Except Exc (List String)
  | .dict l => .ok (l.map (fun kv => kv.1))
  | _ => .error ⟨.otherError "AttributeError", "object has no attribute keys"⟩

/-- `round(q, 6)` (ties abstracted to round-to-nearest). -/
def round6 (q : ℚ) : ℚ := ((round (q * 1000000) : ℤ) : ℚ) / 1000000

/-- `[b₁, …]` as a Python list of booleans. -/
def boolsPy (l : List Bool) : PyVal := .list (l.map PyVal.bool)

/-- `[q₁, …]` as a Python list of floats. -/
def ratsPy (l : List ℚ) : PyVal := .list (l.map PyVal.rat)

/-- `[s₁, …]` as a Python list of strings. -/
def strsPy (l : List String) : PyVal := .list (l.map PyVal.str)

/--
`next((m.get("id", 1) for m in materials if m.get("name") == nm), 1)` —
the material-id scan of the workflow tools, evaluated lazily like the
generator expression: it raises as soon as a scanned element lacks
`.get`, and defaults to 1 when no name matches.
-/
def nextIdScan (nm : String) : List PyVal → Except Exc PyVal
  | [] => .ok (.int 1)
  | m :: rest => do
    let v ← pyDictGet m "name" .none
    if pyEqB v (.str nm) then pyDictGet m "id" (.int 1)
    else nextIdScan nm rest

/-- `sections[0] if sections else 1` — the section-id default of the
workflow tools. -/
def secIdOf (sections : PyVal) : Except Exc PyVal :=
  if sections.truthy then pyIndex0 sections else .ok (.int 1)

/-- `[t for t in data if t.get("name") == nm]` — the tendon filter. -/
def filterByName (nm : String) : List PyVal → Except Exc (List PyVal)
  | [] => .ok []
  | t :: rest => do
    let v ← pyDictGet t "name" .none
    let tail ← filterByName nm rest
    if pyEqB v (.str nm) then .ok (t :: tail) else .ok tail

/-- `[(row[0], row[1], row[2]) for row in factors]` — the load-factor
reshaping of `add_check_load_combination`. -/
def rows3 : List PyVal → Except Exc (List PyVal)
  | [] => .ok []
  | r :: rest => do
    let r0 ← pyIndexN r 0
    let r1 ← pyIndexN r 1
    let r2 ← pyIndexN r 2
    let tail ← rows3 rest
    .ok (.tuple [r0, r1, r2] :: tail)

/-- `[tuple(r) for r in rows]` — the reshaping used by
`add_construction_stage` (on typed lists) and `add_parametric_reinforcement`. -/
def tuplesOf : List PyVal → Except Exc (List PyVal)
  | [] => .ok []
  | r :: rest => do
    let t ← pyToTuple r
    let tail ← tuplesOf rest
    .ok (t :: tail)

/--
One call from a tool handler to its `BridgeProvider` (keyword arguments
recorded in call order), or — in the visualization module — to the
filesystem (`os.`-prefixed method names).
-/
structure PCall where
  method : String
  kwargs : List (String × PyVal)

/-- A tool-handler body: a program issuing provider calls. -/
abbrev TProg (α : Type) : Type := Prog PCall α

/-- `provider.m(kwargs)` -/
def pcall (m : String) (k : List (String × PyVal)) : TProg PyVal :=
  Prog.call ⟨m, k⟩

namespace Tools

/-- Body of the `create_nodes` tool (inside its `try`). -/
def create_nodes (node_data : List PyVal) (intersected is_merged : Bool) :
    TProg String := do
  let _ ← pcall "add_nodes"
    [("node_data", .list node_data), ("intersected", .bool intersected),
     ("is_merged", .bool is_merged)]
  Prog.pure ("Successfully created " ++ toString node_data.length ++
    " nodes (成功创建 " ++ toString node_data.length ++ " 个节点)")

/-- Body of the `create_elements` tool. -/
def create_elements (element_data : List PyVal) : TProg String := do
  let _ ← pcall "add_elements" [("ele_data", .list element_data)]
  Prog.pure ("Successfully created " ++ toString element_data.length ++
    " elements (成功创建 " ++ toString element_data.length ++ " 个单元)")

/-- Body of the `create_material` tool. -/
def create_material (name : String) (mat_type standard : Int)
    (database : String) (data_info : Option (List ℚ)) : TProg String := do
  let kw : List (String × PyVal) :=
    match data_info with
    | some l => if l.isEmpty then [] else [("data_info", ratsPy l)]
    | Option.none => []
  let _ ← pcall "add_material"
    ([("name", .str name), ("mat_type", .int mat_type),
      ("standard", .int standard), ("database", .str database)] ++ kw)
  Prog.pure ("Successfully created material '" ++ name ++ "' (成功创建材料 '" ++
    name ++ "')")

/-- Body of the `create_section` tool. -/
def create_section (name sec_type : String) (sec_info : Option (List ℚ))
    (box_height : Option ℚ) (box_num : Option Int) : TProg String := do
  let kw1 : List (String × PyVal) :=
    match sec_info with
    | some l => if l.isEmpty then [] else [("sec_info", ratsPy l)]
    | Option.none => []
  let kw2 : List (String × PyVal) :=
    match box_height with
    | some q => [("box_height", .rat q)]
    | Option.none => []
  let kw3 : List (String × PyVal) :=
    match box_num with
    | some n => [("box_num", .int n)]
    | Option.none => []
  let _ ← pcall "add_section"
    (("name", .str name) :: ("sec_type", .str sec_type) :: (kw1 ++ kw2 ++ kw3))
  Prog.pure ("Successfully created section '" ++ name ++ "' (type: " ++ sec_type ++
    ") (成功创建截面 '" ++ name ++ "')")

/-- Body of the `set_support` tool. -/
def set_support (node_id : PyVal) (dx dy dz rx ry rz : Bool)
    (group_name : String) : TProg String := do
  let boundary_info := boolsPy [dx, dy, dz, rx, ry, rz]
  let kw : List (String × PyVal) :=
    if group_name ≠ "" then [("group_name", .str group_name)] else []
  let _ ← pcall "add_general_support"
    (("node_id", node_id) :: ("boundary_info", boundary_info) :: kw)
  Prog.pure ("Successfully set support on node(s) " ++ pyStr node_id ++
    " (成功设置支承)")

/-- Body of the `apply_nodal_force` tool. -/
def apply_nodal_force (node_id : PyVal) (case_name : String)
    (fx fy fz mx my mz : ℚ) (group_name : String) : TProg String := do
  let load_info := ratsPy [fx, fy, fz, mx, my, mz]
  let kw : List (String × PyVal) :=
    if group_name ≠ "" then [("group_name", .str group_name)] else []
  let _ ← pcall "add_nodal_force"
    (("node_id", node_id) :: ("case_name", .str case_name)
      :: ("load_info", load_info) :: kw)
  Prog.pure ("Successfully applied force to node(s) " ++ pyStr node_id ++
    " in case '" ++ case_name ++ "' (成功施加荷载)")

/-- Body of the `apply_beam_distributed_load` tool. -/
def apply_beam_distributed_load (element_id : PyVal) (case_name : String)
    (direction : Int) (load_values load_positions : Option (List ℚ))
    (group_name : String) : TProg String := do
  let kw1 : List (String × PyVal) := [("coord_system", .int direction)]
  let kw2 : List (String × PyVal) :=
    match load_values with
    | some l => if l.isEmpty then [] else [("list_load", ratsPy l)]
    | Option.none => []
  let kw3 : List (String × PyVal) :=
    match load_positions with
    | some l => if l.isEmpty then [] else [("list_x", ratsPy l)]
    | Option.none => []
  let kw4 : List (String × PyVal) :=
    if group_name ≠ "" then [("group_name", .str group_name)] else []
  let _ ← pcall "add_beam_element_load"
    (("element_id", element_id) :: ("case_name", .str case_name)
      :: ("load_type", .int 3) :: (kw1 ++ kw2 ++ kw3 ++ kw4))
  Prog.pure ("Successfully applied distributed load on element(s) " ++
    pyStr element_id ++ " (成功施加分布荷载)")

/-- Body of the `add_construction_stage` tool. -/
def add_construction_stage (name : String) (duration : ℚ)
    (active_structures active_boundaries active_loads :
      Option (List (List PyVal))) : TProg String := do
  let kw1 : List (String × PyVal) ←
    match active_structures with
    | some l =>
      if l.isEmpty then Prog.pure [] else do
        let ts ← Prog.lift (tuplesOf (l.map PyVal.list))
        Prog.pure [("active_structures", .list ts)]
    | Option.none => Prog.pure []
  let kw2 : List (String × PyVal) ←
    match active_boundaries with
    | some l =>
      if l.isEmpty then Prog.pure [] else do
        let ts ← Prog.lift (tuplesOf (l.map PyVal.list))
        Prog.pure [("active_boundaries", .list ts)]
    | Option.none => Prog.pure []
  let kw3 : List (String × PyVal) ←
    match active_loads with
    | some l =>
      if l.isEmpty then Prog.pure [] else do
        let ts ← Prog.lift (tuplesOf (l.map PyVal.list))
        Prog.pure [("active_loads", .list ts)]
    | Option.none => Prog.pure []
  let _ ← pcall "add_construction_stage"
    (("name", .str name) :: ("duration", .rat duration) :: (kw1 ++ kw2 ++ kw3))
  Prog.pure ("Successfully added construction stage '" ++ name ++
    "' (成功添加施工阶段 '" ++ name ++ "')")

/-- Body of the `configure_analysis` tool. -/
def configure_analysis (do_construction_stage do_creep do_vibration : Bool)
    (vibration_modes : Int) (solver_type : Int) : TProg String := do
  let _ := solver_type
  let _ ← pcall "update_construction_stage_setting"
    [("do_analysis", .bool do_construction_stage),
     ("do_creep_analysis", .bool do_creep)]
  if do_vibration then do
    let _ ← pcall "update_self_vibration_setting"
      [("do_analysis", .bool true), ("mode_num", .int vibration_modes)]
    Prog.pure ()
  else Prog.pure ()
  Prog.pure ("Analysis configured: construction_stage=" ++
    pyStr (.bool do_construction_stage) ++ ", creep=" ++ pyStr (.bool do_creep) ++
    ", vibration=" ++ pyStr (.bool do_vibration) ++ " (分析配置完成)")

/-- Body of the `validate_model` tool. -/
def validate_model : TProg String := do
  let result ← pcall "validate_model" []
  let is_valid ← Prog.lift (pyGetItemStr result "is_valid")
  let lines1 : List String :=
    if is_valid.truthy then ["✅ Model validation PASSED (模型验证通过)"]
    else ["❌ Model validation FAILED (模型验证失败)"]
  let summary ← Prog.lift (pyGetItemStr result "summary")
  let nc ← Prog.lift (pyGetItemStr summary "node_count")
  let ec ← Prog.lift (pyGetItemStr summary "element_count")
  let mc ← Prog.lift (pyGetItemStr summary "material_count")
  let sc ← Prog.lift (pyGetItemStr summary "section_count")
  let stc ← Prog.lift (pyGetItemStr summary "stage_count")
  let lc ← Prog.lift (pyGetItemStr summary "load_case_count")
  let lines2 := lines1 ++
    ["\n📊 Model Summary (模型概要):\n  Nodes (节点): " ++ pyStr nc ++
     "\n  Elements (单元): " ++ pyStr ec ++ "\n  Materials (材料): " ++ pyStr mc ++
     "\n  Sections (截面): " ++ pyStr sc ++ "\n  Stages (施工阶段): " ++ pyStr stc ++
     "\n  Load Cases (荷载工况): " ++ pyStr lc]
  let errs ← Prog.lift (pyGetItemStr result "errors")
  let lines3 ←
    if errs.truthy then do
      let el ← Prog.lift (pyIterList errs)
      Prog.pure (lines2 ++ ["\n🚫 Errors (错误):"] ++
        el.map (fun e => "  - " ++ pyStr e))
    else Prog.pure lines2
  let warns ← Prog.lift (pyGetItemStr result "warnings")
  let lines4 ←
    if warns.truthy then do
      let wl ← Prog.lift (pyIterList warns)
      Prog.pure (lines3 ++ ["\n⚠️ Warnings (警告):"] ++
        wl.map (fun w => "  - " ++ pyStr w))
    else Prog.pure lines3
  Prog.pure (String.intercalate "\n" lines4)

/-- Body of the `get_model_info` tool. -/
def get_model_info : TProg String := do
  let summary ← pcall "get_model_summary" []
  let nc ← Prog.lift (pyGetItemStr summary "node_count")
  let ec ← Prog.lift (pyGetItemStr summary "element_count")
  let mc ← Prog.lift (pyGetItemStr summary "material_count")
  let sc ← Prog.lift (pyGetItemStr summary "section_count")
  let stc ← Prog.lift (pyGetItemStr summary "stage_count")
  let lc ← Prog.lift (pyGetItemStr summary "load_case_count")
  let sg ← Prog.lift (pyGetItemStr summary "structure_group_count")
  let bg ← Prog.lift (pyGetItemStr summary "boundary_group_count")
  Prog.pure ("📊 Bridge Model Summary (桥梁模型概要):\n  Nodes (节点): " ++
    pyStr nc ++ "\n  Elements (单元): " ++ pyStr ec ++
    "\n  Materials (材料): " ++ pyStr mc ++ "\n  Sections (截面): " ++ pyStr sc ++
    "\n  Construction Stages (施工阶段): " ++ pyStr stc ++
    "\n  Load Cases (荷载工况): " ++ pyStr lc ++
    "\n  Structure Groups (结构组): " ++ pyStr sg ++
    "\n  Boundary Groups (边界组): " ++ pyStr bg)

/-- Body of the `get_analysis_results` tool. -/
def get_analysis_results (result_type : String) (ids : PyVal) (stage_id : Int)
    (case_name : String) : TProg String := do
  let kw : List (String × PyVal) :=
    if case_name ≠ "" then [("case_name", .str case_name)] else []
  if result_type = "deformation" then do
    let r ← pcall "get_deformation"
      (("ids", ids) :: ("stage_id", .int stage_id) :: kw)
    Prog.pure (pyStr r)
  else if result_type = "force" then do
    let r ← pcall "get_element_force"
      (("ids", ids) :: ("stage_id", .int stage_id) :: kw)
    Prog.pure (pyStr r)
  else if result_type = "stress" then do
    let r ← pcall "get_element_stress"
      (("ids", ids) :: ("stage_id", .int stage_id) :: kw)
    Prog.pure (pyStr r)
  else if result_type = "reaction" then do
    let r ← pcall "get_reaction"
      (("ids", ids) :: ("stage_id", .int stage_id) :: kw)
    Prog.pure (pyStr r)
  else
    Prog.pure ("Unknown result_type '" ++ result_type ++
      "'. Available: deformation, force, stress, reaction")

/-- Body of the `create_structure_group` tool. -/
def create_structure_group (name : String) (element_ids : Option PyVal) :
    TProg String := do
  let _ ← pcall "add_structure_group" [("name", .str name)]
  match element_ids with
  | some v => do
    let _ ← pcall "add_elements_to_structure_group"
      [("name", .str name), ("element_ids", v)]
    Prog.pure ("Structure group '" ++ name ++ "' created with elements " ++
      pyStr v ++ " (结构组 '" ++ name ++ "' 创建成功，已添加单元)")
  | Option.none =>
    Prog.pure ("Structure group '" ++ name ++ "' created (结构组 '" ++ name ++
      "' 创建成功)")

/-- Body of the `create_boundary_group` tool. -/
def create_boundary_group (name : String) : TProg String := do
  let _ ← pcall "add_boundary_group" [("name", .str name)]
  Prog.pure ("Boundary group '" ++ name ++ "' created (边界组 '" ++ name ++
    "' 创建成功)")

/-- Body of the `create_load_group` tool. -/
def create_load_group (name : String) : TProg String := do
  let _ ← pcall "add_load_group" [("name", .str name)]
  Prog.pure ("Load group '" ++ name ++ "' created (荷载组 '" ++ name ++
    "' 创建成功)")

/-- Body of the `list_group_members` tool. -/
def list_group_members (group_type name : String) : TProg String := do
  if group_type = "structure" then do
    let groups ← pcall "get_structure_group_names" []
    let isIn ← Prog.lift (pyContains groups (.str name))
    if !isIn then
      Prog.pure ("Structure group '" ++ name ++ "' not found (未找到结构组 '" ++
        name ++ "')")
    else do
      let members ← pcall "get_structure_group_elements" [("name", .str name)]
      Prog.pure ("Structure group '" ++ name ++ "' elements (结构组成员): " ++
        pyStr members)
  else if group_type = "boundary" then do
    let groups ← pcall "get_boundary_data" []
    let ks ← Prog.lift (pyKeys groups)
    Prog.pure ("All boundary groups (所有边界组): " ++ pyStr (strsPy ks))
  else if group_type = "load" then do
    let cases ← pcall "get_load_case_names" []
    Prog.pure ("All load cases/groups (所有荷载工况): " ++ pyStr cases)
  else
    Prog.pure "group_type must be 'structure', 'boundary', or 'load'"

/-- Body of the `add_elements_to_group` tool. -/
def add_elements_to_group (group_name : String) (element_ids : PyVal) :
    TProg String := do
  let _ ← pcall "add_elements_to_structure_group"
    [("name", .str group_name), ("element_ids", element_ids)]
  Prog.pure ("Added elements " ++ pyStr element_ids ++ " to structure group '" ++
    group_name ++ "' (已向结构组 '" ++ group_name ++ "' 添加单元)")

/-- Body of the `merge_operation_stage` tool. -/
def merge_operation_stage (name : String) : TProg String := do
  let _ ← pcall "merge_all_stages" [("name", .str name)]
  Prog.pure ("Successfully merged all stages into operation stage '" ++ name ++
    "' (成功合并为运营阶段 '" ++ name ++ "')")

/-- Body of the `create_tendon_property` tool. -/
def create_tendon_property (name : String) (tendon_type : Int)
    (elastic_modulus area friction deviation anchorage_loss : ℚ) :
    TProg String := do
  let _ ← pcall "add_tendon_property"
    [("name", .str name), ("tendon_type", .int tendon_type),
     ("elastic_modulus", .rat elastic_modulus), ("area", .rat area),
     ("friction", .rat friction), ("deviation", .rat deviation),
     ("anchorage_loss", .rat anchorage_loss)]
  Prog.pure ("Tendon property '" ++ name ++ "' created (类型: " ++
    (if tendon_type = 1 then "后张法" else "先张法") ++ ") (钢束特性 '" ++ name ++
    "' 创建成功)")

/-- Body of the `create_tendon_2d` tool. -/
def create_tendon_2d (name property_name : String) (element_ids : PyVal)
    (control_points : List PyVal) (tension_type : Int) (group_name : String) :
    TProg String := do
  let kw : List (String × PyVal) :=
    if group_name ≠ "" then [("group_name", .str group_name)] else []
  let _ ← pcall "add_tendon_2d"
    (("name", .str name) :: ("property_name", .str property_name)
      :: ("element_ids", element_ids) :: ("control_points", .list control_points)
      :: ("tension_type", .int tension_type) :: kw)
  Prog.pure ("2D Tendon '" ++ name ++ "' created (2D钢束 '" ++ name ++
    "' 创建成功)")

/-- `for tn in names: provider.add_pre_stress(...)` — the prestress loop. -/
def prestressLoop (case_name : String) (force : ℚ)
    (kw : List (String × PyVal)) : List PyVal → TProg Unit
  | [] => Prog.pure ()
  | tn :: rest => do
    let _ ← pcall "add_pre_stress"
      (("case_name", .str case_name) :: ("tendon_name", tn)
        :: ("force", .rat force) :: kw)
    prestressLoop case_name force kw rest

/-- Body of the `apply_prestress` tool. -/
def apply_prestress (case_name : String) (tendon_name : PyVal) (force : ℚ)
    (group_name : String) : TProg String := do
  let names : List PyVal ←
    match tendon_name with
    | .str s => Prog.pure [.str s]
    | v => Prog.lift (pyIterList v)
  let kw : List (String × PyVal) :=
    if group_name ≠ "" then [("group_name", .str group_name)] else []
  prestressLoop case_name force kw names
  Prog.pure ("Prestress " ++ show0f (force / 1000) ++ "kN applied to " ++
    toString names.length ++ " tendon(s) in case '" ++ case_name ++
    "' (预应力 " ++ show0f (force / 1000) ++ "kN 已施加到 " ++
    toString names.length ++ " 根钢束)")

/-- Body of the `get_tendon_info` tool. -/
def get_tendon_info (tendon_name : String) : TProg String := do
  let tendon_data ← pcall "get_tendon_data" []
  if tendon_name ≠ "" then do
    let l ← Prog.lift (pyIterList tendon_data)
    let filtered ← Prog.lift (filterByName tendon_name l)
    if filtered.isEmpty then
      Prog.pure ("Tendon '" ++ tendon_name ++ "' not found (未找到钢束 '" ++
        tendon_name ++ "')")
    else
      Prog.pure ("Tendon info (钢束信息): " ++ pyStr (.list filtered))
  else do
    let n ← Prog.lift (pyLen tendon_data)
    let l ← Prog.lift (pyIterList tendon_data)
    Prog.pure ("Total " ++ toString n ++ " tendon(s) (共 " ++ toString n ++
      " 根钢束):\n" ++ String.intercalate "\n" (l.map pyStr))

/-- Body of the `add_elastic_link` tool. -/
def add_elastic_link (link_type start_node_id end_node_id : Int)
    (stiffness_values : Option (List ℚ)) (group_name : String) :
    TProg String := do
  let kw1 : List (String × PyVal) :=
    match stiffness_values with
    | some l => if l.isEmpty then [] else [("stiffness", ratsPy l)]
    | Option.none => []
  let kw2 : List (String × PyVal) :=
    if group_name ≠ "" then [("group_name", .str group_name)] else []
  let _ ← pcall "add_elastic_link"
    (("link_type", .int link_type) :: ("start_id", .int start_node_id)
      :: ("end_id", .int end_node_id) :: (kw1 ++ kw2))
  let type_name :=
    if link_type = 1 then "Rigid(刚性)"
    else if link_type = 2 then "Rigid arm(刚性臂)"
    else if link_type = 3 then "General elastic(一般弹性)"
    else if link_type = 4 then "Fixed-end(固接)"
    else if link_type = 5 then "Master-slave(主从)"
    else toString link_type
  Prog.pure ("Elastic link (" ++ type_name ++ ") added between nodes " ++
    toString start_node_id ++ " and " ++ toString end_node_id ++
    " (弹性连接创建成功)")

/-- Body of the `add_master_slave_link` tool. -/
def add_master_slave_link (master_node_id : Int) (slave_node_ids : PyVal)
    (dof_constraints : Option (List Bool)) (group_name : String) :
    TProg String := do
  let kw1 : List (String × PyVal) :=
    match dof_constraints with
    | some l => if l.isEmpty then [] else [("dof_constraints", boolsPy l)]
    | Option.none => []
  let kw2 : List (String × PyVal) :=
    if group_name ≠ "" then [("group_name", .str group_name)] else []
  let _ ← pcall "add_master_slave_link"
    (("master_id", .int master_node_id) :: ("slave_ids", slave_node_ids)
      :: (kw1 ++ kw2))
  Prog.pure ("Master-slave link added: master=" ++ toString master_node_id ++
    ", slaves=" ++ pyStr slave_node_ids ++ " (主从约束创建成功)")

/-- Body of the `add_elastic_support` tool. -/
def add_elastic_support (node_id : PyVal) (spring_values : List ℚ)
    (group_name : String) : TProg String := do
  let kw : List (String × PyVal) :=
    if group_name ≠ "" then [("group_name", .str group_name)] else []
  let _ ← pcall "add_elastic_support"
    (("node_id", node_id) :: ("spring_values", ratsPy spring_values) :: kw)
  Prog.pure ("Elastic support added on node(s) " ++ pyStr node_id ++
    " with stiffness " ++ pyStr (ratsPy spring_values) ++ " (弹性支承创建成功)")

/-- `DEFAULT_IMAGE_DIR` of the visualization module
(`os.path.expanduser` abstracted as a literal home path). -/
def DEFAULT_IMAGE_DIR : String := "~/bridge_mcp_images"

/-- The `angle_map` presets shared by the two view tools. -/
def angleMap (preset : String) : Option (Int × Int) :=
  if preset = "iso" then some (45, 35)
  else if preset = "front" then some (0, 0)
  else if preset = "side" then some (90, 0)
  else if preset = "top" then some (0, 90)
  else Option.none

/-- Body of the `save_model_screenshot` tool (`_ensure_dir` is the
`os.makedirs` filesystem call, recorded with an `os.`-prefixed name). -/
def save_model_screenshot (file_path view_angle : String) : TProg String := do
  let fp ←
    if file_path = "" then do
      let _ ← pcall "os.makedirs" [("path", .str DEFAULT_IMAGE_DIR)]
      Prog.pure (DEFAULT_IMAGE_DIR ++ "/model_view.png")
    else Prog.pure file_path
  match angleMap view_angle with
  | some hv =>
    Prog.tryCatch
      (do
        let _ ← pcall "set_view_angle"
          [("horizontal", .rat hv.1), ("vertical", .rat hv.2)]
        Prog.pure ())
      (fun _ => Prog.pure ())
  | Option.none => Prog.pure ()
  let _ ← pcall "save_model_image" [("file_path", .str fp)]
  Prog.pure ("Screenshot saved to: " ++ fp ++ " (截图已保存)")

/-- Body of the `plot_analysis_result` tool. -/
def plot_analysis_result (result_type : String) (stage_id : Int)
    (case_name component file_path : String) : TProg String := do
  let fp ←
    if file_path = "" then do
      let _ ← pcall "os.makedirs" [("path", .str DEFAULT_IMAGE_DIR)]
      Prog.pure (DEFAULT_IMAGE_DIR ++ "/result_" ++ result_type ++ "_stage" ++
        toString stage_id ++ ".png")
    else Prog.pure file_path
  let kw1 : List (String × PyVal) := [("stage_id", .int stage_id)]
  let kw2 : List (String × PyVal) :=
    if case_name ≠ "" then [("case_name", .str case_name)] else []
  let kw3 : List (String × PyVal) :=
    if component ≠ "" then [("component", .str component)] else []
  let _ ← pcall "plot_result"
    (("result_type", .str result_type) :: ("file_path", .str fp)
      :: (kw1 ++ kw2 ++ kw3))
  Prog.pure ("Result plot saved to: " ++ fp ++ " (结果云图已保存)")

/-- Body of the `set_view_angle` tool. -/
def set_view_angle (angle_preset : String) (horizontal vertical : Option ℚ) :
    TProg String := do
  let hv0 : PyVal := match horizontal with
    | some q => .rat q
    | Option.none => .none
  let vv0 : PyVal := match vertical with
    | some q => .rat q
    | Option.none => .none
  if angle_preset ≠ "custom" then
    match angleMap angle_preset with
    | Option.none =>
      Prog.pure ("Unknown preset '" ++ angle_preset ++
        "'. Use: iso, front, side, top, or custom")
    | some hv => do
      let _ ← pcall "set_view_angle"
        [("horizontal", .int hv.1), ("vertical", .int hv.2)]
      Prog.pure ("View angle set to " ++ angle_preset ++ " (horizontal=" ++
        pyStr (.int hv.1) ++ "°, vertical=" ++ pyStr (.int hv.2) ++
        "°) (视角已设置)")
  else do
    let _ ← pcall "set_view_angle" [("horizontal", hv0), ("vertical", vv0)]
    Prog.pure ("View angle set to " ++ angle_preset ++ " (horizontal=" ++
      pyStr hv0 ++ "°, vertical=" ++ pyStr vv0 ++ "°) (视角已设置)")

/-- Body of the `add_standard_vehicle` tool. -/
def add_standard_vehicle (name : String) (vehicle_type standard : Int) :
    TProg String := do
  let _ ← pcall "add_standard_vehicle"
    [("name", .str name), ("vehicle_type", .int vehicle_type),
     ("standard", .int standard)]
  let std_name := if standard = 1 then "公路规范JTG D60" else "铁路规范TB 10002"
  Prog.pure ("Standard vehicle '" ++ name ++ "' added from " ++ std_name ++
    " type " ++ toString vehicle_type ++ " (标准车辆 '" ++ name ++ "' 创建成功)")

/-- Body of the `add_traffic_lane` tool. -/
def add_traffic_lane (name : String) (lane_width lateral_offset : ℚ)
    (element_ids : PyVal) : TProg String := do
  let _ ← pcall "add_lane"
    [("name", .str name), ("lane_width", .rat lane_width),
     ("lateral_offset", .rat lateral_offset), ("element_ids", element_ids)]
  Prog.pure ("Traffic lane '" ++ name ++ "' defined (width=" ++
    showQ lane_width ++ "m) (行车道 '" ++ name ++ "' 创建成功)")

/-- Body of the `create_live_load_case` tool. -/
def create_live_load_case (name : String) (vehicle_names lane_names : List String)
    (load_factor impact_factor : ℚ) : TProg String := do
  let _ ← pcall "add_live_load_case"
    [("name", .str name), ("vehicle_names", strsPy vehicle_names),
     ("lane_names", strsPy lane_names), ("load_factor", .rat load_factor),
     ("impact_factor", .rat impact_factor)]
  Prog.pure ("Live load case '" ++ name ++ "' created: " ++
    toString vehicle_names.length ++ " vehicle(s) on " ++
    toString lane_names.length ++ " lane(s) (移动荷载工况 '" ++ name ++
    "' 创建成功)")

/-- Body of the `get_live_load_results` tool. -/
def get_live_load_results (case_name result_type : String) (element_ids : PyVal) :
    TProg String := do
  let r ← pcall "get_live_load_results"
    [("case_name", .str case_name), ("result_type", .str result_type),
     ("ids", element_ids)]
  Prog.pure (pyStr r)

/-- Body of the `setup_concrete_check` tool. -/
def setup_concrete_check (name : String) (standard structure_type : Int)
    (group_name : String) : TProg String := do
  let _ ← pcall "add_concrete_check_case"
    [("name", .str name), ("standard", .int standard),
     ("structure_type", .int structure_type), ("group_name", .str group_name)]
  let std :=
    if standard = 1 then "JTG 3362-2018(公路)"
    else if standard = 2 then "TB 10092-2017(铁路)"
    else toString standard
  let sty :=
    if structure_type = 1 then "钢筋混凝土"
    else if structure_type = 2 then "B类预应力"
    else if structure_type = 3 then "A类预应力"
    else if structure_type = 4 then "全预应力"
    else toString structure_type
  Prog.pure ("Concrete check case '" ++ name ++ "' created: " ++ std ++ ", " ++
    sty ++ ", group='" ++ group_name ++ "' (混凝土检算工况 '" ++ name ++
    "' 创建成功)")

/-- Body of the `add_check_load_combination` tool. -/
def add_check_load_combination (name : String) (standard kind : Int)
    (load_case_factors : Option (List PyVal)) (combine_type : Int) :
    TProg String := do
  let factors : List PyVal :=
    match load_case_factors with
    | some l => l
    | Option.none => []
  let factors_tuple ← Prog.lift (rows3 factors)
  let _ ← pcall "add_check_load_combine"
    [("name", .str name), ("standard", .int standard), ("kind", .int kind),
     ("combine_type", .int combine_type),
     ("load_case_factors", .list factors_tuple)]
  Prog.pure ("Load combination '" ++ name ++ "' added with " ++
    toString factors.length ++ " cases (荷载组合 '" ++ name ++
    "' 添加成功，包含 " ++ toString factors.length ++ " 个工况)")

/-- Body of the `run_concrete_check` tool. -/
def run_concrete_check (name : String) : TProg String := do
  let _ ← pcall "solve_concrete_check" [("name", .str name)]
  Prog.pure ("Concrete check '" ++ name ++ "' completed. " ++
    "Use get_check_results to retrieve results. (混凝土检算 '" ++ name ++
    "' 完成，使用 get_check_results 获取结果)")

/-- Body of the `add_parametric_reinforcement` tool. -/
def add_parametric_reinforcement (section_id : Int) (position : Int)
    (has_outer has_inner : Bool)
    (outer_rebar_info inner_rebar_info : Option (List PyVal)) :
    TProg String := do
  let kw0 : List (String × PyVal) :=
    [("sec_id", .int section_id), ("position", .int position),
     ("has_outer", .bool has_outer), ("has_inner", .bool has_inner)]
  let kw1 : List (String × PyVal) ←
    match outer_rebar_info with
    | some l =>
      if l.isEmpty then Prog.pure [] else do
        let ts ← Prog.lift (tuplesOf l)
        Prog.pure [("outer_info", .list ts)]
    | Option.none => Prog.pure []
  let kw2 : List (String × PyVal) ←
    match inner_rebar_info with
    | some l =>
      if l.isEmpty then Prog.pure [] else do
        let ts ← Prog.lift (tuplesOf l)
        Prog.pure [("inner_info", .list ts)]
    | Option.none => Prog.pure []
  let _ ← pcall "add_parameter_reinforcement" (kw0 ++ kw1 ++ kw2)
  Prog.pure ("Parametric reinforcement added to section " ++
    toString section_id ++ " (" ++ (if position = 0 then "I端" else "J端") ++
    ") (参数化配筋添加成功)")

/-- Body of the `create_simple_beam_bridge` workflow tool (inside its
outer `try`; steps 1, 2 and 7 carry their own inner `try/except`). -/
def create_simple_beam_bridge (span : ℚ) (num_elements : Int)
    (material_name section_name : String) (section_width section_height : ℚ)
    (self_weight_case : String) : TProg String := do
  let log1 ← Prog.tryCatch
    (do
      let _ ← pcall "add_material"
        [("name", .str material_name), ("mat_type", .int 1),
         ("standard", .int 1), ("database", .str material_name)]
      Prog.pure ["✓ Material '" ++ material_name ++ "' created"])
    (fun _ => Prog.pure
      ["ℹ Material '" ++ material_name ++ "' already exists or skipped"])
  let log2 ← Prog.tryCatch
    (do
      let _ ← pcall "add_section"
        [("name", .str section_name), ("sec_type", .str "矩形"),
         ("sec_info", ratsPy [section_width, section_height])]
      Prog.pure (log1 ++ ["✓ Section '" ++ section_name ++ "' (" ++
        showQ section_width ++ "×" ++ showQ section_height ++ "m) created"]))
    (fun _ => Prog.pure (log1 ++
      ["ℹ Section '" ++ section_name ++ "' already exists or skipped"]))
  let n : Int := num_elements + 1
  let dx ← Prog.lift (pyDiv span (num_elements : ℚ))
  let node_data : List PyVal := (List.range n.toNat).map
    (fun i => .list [.int ((i : Int) + 1), .rat ((i : ℚ) * dx), .rat 0, .rat 0])
  let _ ← pcall "add_nodes"
    [("node_data", .list node_data), ("is_merged", .bool true)]
  let log3 := log2 ++ ["✓ " ++ toString n ++ " nodes created (x=0 to " ++
    showQ span ++ "m)"]
  let materials ← pcall "get_material_data" []
  let mat_id ← Prog.lift (do
    let l ← pyIterList materials
    nextIdScan material_name l)
  let sections ← pcall "get_section_names" []
  let sec_id ← Prog.lift (secIdOf sections)
  let ele_data : List PyVal := (List.range num_elements.toNat).map
    (fun i => .list [.int ((i : Int) + 1), .int 1, mat_id, sec_id, .int 0,
      .int ((i : Int) + 1), .int ((i : Int) + 2)])
  let _ ← pcall "add_elements" [("ele_data", .list ele_data)]
  let log4 := log3 ++ ["✓ " ++ toString num_elements ++ " beam elements created"]
  let _ ← pcall "add_general_support"
    [("node_id", .int 1),
     ("boundary_info", boolsPy [true, true, true, false, false, false])]
  let _ ← pcall "add_general_support"
    [("node_id", .int n),
     ("boundary_info", boolsPy [false, true, true, false, false, false])]
  let log5 := log4 ++ ["✓ Pin support at node 1, roller at node " ++ toString n]
  let log6 ← Prog.tryCatch
    (do
      let _ ← pcall "add_self_weight" [("case_name", .str self_weight_case)]
      Prog.pure (log5 ++ ["✓ Self-weight case '" ++ self_weight_case ++
        "' added"]))
    (fun _ => Prog.pure (log5 ++
      ["ℹ Self-weight case skipped (add manually if needed)"]))
  Prog.pure ("✅ Simple beam bridge created successfully! (简支梁桥模型创建成功)\n" ++
    String.intercalate "\n" log6 ++ "\n\nSpan: " ++ showQ span ++
    "m | Elements: " ++ toString num_elements ++ " | Nodes: " ++ toString n ++
    " | Material: " ++ material_name ++ " | Section: " ++ section_name ++ "\n" ++
    "Next steps: apply_beam_distributed_load → configure_analysis → get_analysis_results")

/-- The node-building loop of `create_continuous_beam_bridge`: per span,
`num_elements_per_span` rows at `round(x, 6)` steps; returns the rows
and the next node id. -/
def contNodeRows (neps : Int) : List ℚ → ℚ → Int → Except Exc (List PyVal × Int)
  | [], _, nid => .ok ([], nid)
  | s :: rest, x, nid => do
    let dx ← pyDiv s (neps : ℚ)
    let k := neps.toNat
    let rows : List PyVal := (List.range k).map
      (fun j => .list [.int (nid + (j : Int)), .rat (round6 (x + (j : ℚ) * dx)),
        .rat 0, .rat 0])
    let tail ← contNodeRows neps rest (x + (k : ℚ) * dx) (nid + (k : Int))
    .ok (rows ++ tail.1, tail.2)

/-- The pier-support loop of `create_continuous_beam_bridge` over
`spans[:-1]`: advances the pier node by `num_elements_per_span`, fixes
it, and collects the log lines. -/
def pierLoop (neps : Int) : List ℚ → Nat → Int → TProg (List String)
  | [], _, _ => Prog.pure []
  | _ :: rest, i, nap => do
    let nap2 := nap + neps
    let _ ← pcall "add_general_support"
      [("node_id", .int nap2),
       ("boundary_info", boolsPy [true, true, true, false, false, false])]
    let tail ← pierLoop neps rest (i + 1) nap2
    Prog.pure (("✓ Pier " ++ toString (i + 1) ++ ": fixed support at node " ++
      toString nap2) :: tail)

/-- Body of the `create_continuous_beam_bridge` workflow tool, after the
`spans is None` default (applied before the `try`) has been resolved. -/
def create_continuous_beam_bridge (spans : List ℚ) (num_elements_per_span : Int)
    (material_name section_name self_weight_case : String) : TProg String := do
  let _ := section_name
  let total_spans : Int := spans.length
  let total_length : ℚ := spans.sum
  let log1 ← Prog.tryCatch
    (do
      let _ ← pcall "add_material"
        [("name", .str material_name), ("mat_type", .int 1),
         ("standard", .int 1), ("database", .str material_name)]
      Prog.pure ["✓ Material '" ++ material_name ++ "' created"])
    (fun _ => Prog.pure ["ℹ Material '" ++ material_name ++ "' skipped"])
  let built ← Prog.lift (contNodeRows num_elements_per_span spans 0 1)
  let node_data : List PyVal :=
    built.1 ++ [.list [.int built.2, .rat (round6 total_length), .rat 0, .rat 0]]
  let _ ← pcall "add_nodes"
    [("node_data", .list node_data), ("is_merged", .bool true)]
  let total_nodes : Nat := node_data.length
  let log2 := log1 ++ ["✓ " ++ toString total_nodes ++ " nodes created"]
  let materials ← pcall "get_material_data" []
  let mat_id ← Prog.lift (do
    let l ← pyIterList materials
    nextIdScan material_name l)
  let sections ← pcall "get_section_names" []
  let sec_id ← Prog.lift (secIdOf sections)
  let total_elements : Int := total_spans * num_elements_per_span
  let ele_data : List PyVal := (List.range total_elements.toNat).map
    (fun i => .list [.int ((i : Int) + 1), .int 1, mat_id, sec_id, .int 0,
      .int ((i : Int) + 1), .int ((i : Int) + 2)])
  let _ ← pcall "add_elements" [("ele_data", .list ele_data)]
  let log3 := log2 ++ ["✓ " ++ toString total_elements ++ " beam elements created"]
  let _ ← pcall "add_general_support"
    [("node_id", .int 1),
     ("boundary_info", boolsPy [false, true, true, false, false, false])]
  let log4 := log3 ++ ["✓ Left abutment: roller support at node 1"]
  let pierLogs ← pierLoop num_elements_per_span spans.dropLast 0 1
  let _ ← pcall "add_general_support"
    [("node_id", .int (total_nodes : Int)),
     ("boundary_info", boolsPy [false, true, true, false, false, false])]
  let log5 := log4 ++ pierLogs ++
    ["✓ Right abutment: roller support at node " ++ toString total_nodes]
  let log6 ← Prog.tryCatch
    (do
      let _ ← pcall "add_self_weight" [("case_name", .str self_weight_case)]
      Prog.pure (log5 ++ ["✓ Self-weight case '" ++ self_weight_case ++
        "' added"]))
    (fun _ => Prog.pure (log5 ++ ["ℹ Self-weight case skipped"]))
  let spans_str := String.intercalate "+" (spans.map show0f)
  Prog.pure ("✅ Continuous beam bridge created! (连续梁桥模型创建成功)\n" ++
    String.intercalate "\n" log6 ++ "\n\nSpans: " ++ spans_str ++ "m | Total: " ++
    show0f total_length ++ "m | Nodes: " ++ toString total_nodes ++
    " | Elements: " ++ toString total_elements ++ "\n" ++
    "Next steps: apply loads → configure_analysis (enable creep) → get_analysis_results")

end Tools

/--
One invocation of a registered MCP tool handler, with its arguments
(all 38 tools registered by server.py; MCP-level argument defaults live
in the schema, so invocations carry explicit arguments here).
-/
inductive ToolCall where
  | create_nodes (node_data : List PyVal) (intersected is_merged : Bool)
  | create_elements (element_data : List PyVal)
  | create_material (name : String) (mat_type standard : Int) (database : String)
      (data_info : Option (List ℚ))
  | create_section (name sec_type : String) (sec_info : Option (List ℚ))
      (box_height : Option ℚ) (box_num : Option Int)
  | set_support (node_id : PyVal) (dx dy dz rx ry rz : Bool) (group_name : String)
  | apply_nodal_force (node_id : PyVal) (case_name : String)
      (fx fy fz mx my mz : ℚ) (group_name : String)
  | apply_beam_distributed_load (element_id : PyVal) (case_name : String)
      (direction : Int) (load_values load_positions : Option (List ℚ))
      (group_name : String)
  | add_construction_stage (name : String) (duration : ℚ)
      (active_structures active_boundaries active_loads :
        Option (List (List PyVal)))
  | configure_analysis (do_construction_stage do_creep do_vibration : Bool)
      (vibration_modes solver_type : Int)
  | validate_model
  | get_model_info
  | get_analysis_results (result_type : String) (ids : PyVal) (stage_id : Int)
      (case_name : String)
  | create_structure_group (name : String) (element_ids : Option PyVal)
  | create_boundary_group (name : String)
  | create_load_group (name : String)
  | list_group_members (group_type name : String)
  | add_elements_to_group (group_name : String) (element_ids : PyVal)
  | merge_operation_stage (name : String)
  | create_tendon_property (name : String) (tendon_type : Int)
      (elastic_modulus area friction deviation anchorage_loss : ℚ)
  | create_tendon_2d (name property_name : String) (element_ids : PyVal)
      (control_points : List PyVal) (tension_type : Int) (group_name : String)
  | apply_prestress (case_name : String) (tendon_name : PyVal) (force : ℚ)
      (group_name : String)
  | get_tendon_info (tendon_name : String)
  | add_elastic_link (link_type start_node_id end_node_id : Int)
      (stiffness_values : Option (List ℚ)) (group_name : String)
  | add_master_slave_link (master_node_id : Int) (slave_node_ids : PyVal)
      (dof_constraints : Option (List Bool)) (group_name : String)
  | add_elastic_support (node_id : PyVal) (spring_values : List ℚ)
      (group_name : String)
  | save_model_screenshot (file_path view_angle : String)
  | plot_analysis_result (result_type : String) (stage_id : Int)
      (case_name component file_path : String)
  | set_view_angle (angle_preset : String) (horizontal vertical : Option ℚ)
  | add_standard_vehicle (name : String) (vehicle_type standard : Int)
  | add_traffic_lane (name : String) (lane_width lateral_offset : ℚ)
      (element_ids : PyVal)
  | create_live_load_case (name : String) (vehicle_names lane_names : List String)
      (load_factor impact_factor : ℚ)
  | get_live_load_results (case_name result_type : String) (element_ids : PyVal)
  | setup_concrete_check (name : String) (standard structure_type : Int)
      (group_name : String)
  | add_check_load_combination (name : String) (standard kind : Int)
      (load_case_factors : Option (List PyVal)) (combine_type : Int)
  | run_concrete_check (name : String)
  | add_parametric_reinforcement (section_id position : Int)
      (has_outer has_inner : Bool)
      (outer_rebar_info inner_rebar_info : Option (List PyVal))
  | create_simple_beam_bridge (span : ℚ) (num_elements : Int)
      (material_name section_name : String) (section_width section_height : ℚ)
      (self_weight_case : String)
  | create_continuous_beam_bridge (spans : Option (List ℚ))
      (num_elements_per_span : Int)
      (material_name section_name self_weight_case : String)

/-- The `try`-block body of each tool handler. -/
def toolBody : ToolCall → TProg String
  | .create_nodes nd i m => Tools.create_nodes nd i m
  | .create_elements ed => Tools.create_elements ed
  | .create_material n mt s db di => Tools.create_material n mt s db di
  | .create_section n st si bh bn => Tools.create_section n st si bh bn
  | .set_support nid dx dy dz rx ry rz g => Tools.set_support nid dx dy dz rx ry rz g
  | .apply_nodal_force nid cn fx fy fz mx my mz g =>
    Tools.apply_nodal_force nid cn fx fy fz mx my mz g
  | .apply_beam_distributed_load eid cn d lv lp g =>
    Tools.apply_beam_distributed_load eid cn d lv lp g
  | .add_construction_stage n d as ab al => Tools.add_construction_stage n d as ab al
  | .configure_analysis dcs dc dv vm st => Tools.configure_analysis dcs dc dv vm st
  | .validate_model => Tools.validate_model
  | .get_model_info => Tools.get_model_info
  | .get_analysis_results rt ids sid cn => Tools.get_analysis_results rt ids sid cn
  | .create_structure_group n e => Tools.create_structure_group n e
  | .create_boundary_group n => Tools.create_boundary_group n
  | .create_load_group n => Tools.create_load_group n
  | .list_group_members gt n => Tools.list_group_members gt n
  | .add_elements_to_group g e => Tools.add_elements_to_group g e
  | .merge_operation_stage n => Tools.merge_operation_stage n
  | .create_tendon_property n tt em a f d al =>
    Tools.create_tendon_property n tt em a f d al
  | .create_tendon_2d n pn eids cps tt g => Tools.create_tendon_2d n pn eids cps tt g
  | .apply_prestress cn tn f g => Tools.apply_prestress cn tn f g
  | .get_tendon_info tn => Tools.get_tendon_info tn
  | .add_elastic_link lt sn en sv g => Tools.add_elastic_link lt sn en sv g
  | .add_master_slave_link m s d g => Tools.add_master_slave_link m s d g
  | .add_elastic_support nid sv g => Tools.add_elastic_support nid sv g
  | .save_model_screenshot fp va => Tools.save_model_screenshot fp va
  | .plot_analysis_result rt sid cn comp fp =>
    Tools.plot_analysis_result rt sid cn comp fp
  | .set_view_angle ap h v => Tools.set_view_angle ap h v
  | .add_standard_vehicle n vt s => Tools.add_standard_vehicle n vt s
  | .add_traffic_lane n lw lo e => Tools.add_traffic_lane n lw lo e
  | .create_live_load_case n vn ln lf imf => Tools.create_live_load_case n vn ln lf imf
  | .get_live_load_results cn rt e => Tools.get_live_load_results cn rt e
  | .setup_concrete_check n s st g => Tools.setup_concrete_check n s st g
  | .add_check_load_combination n s k f ct =>
    Tools.add_check_load_combination n s k f ct
  | .run_concrete_check n => Tools.run_concrete_check n
  | .add_parametric_reinforcement s p ho hi oi ii =>
    Tools.add_parametric_reinforcement s p ho hi oi ii
  | .create_simple_beam_bridge sp ne mn sn sw sh swc =>
    Tools.create_simple_beam_bridge sp ne mn sn sw sh swc
  | .create_continuous_beam_bridge sp ne mn sn swc =>
    Tools.create_continuous_beam_bridge
      (match sp with
        | some l => l
        | Option.none => [30, 50, 30]) ne mn sn swc

/-- The error prefix of each handler's `except Exception as e: return f"…: {e}"`. -/
def toolErrPrefix : ToolCall → String
  | .create_nodes _ _ _ => "Error creating nodes (创建节点失败): "
  | .create_elements _ => "Error creating elements (创建单元失败): "
  | .create_material _ _ _ _ _ => "Error creating material (创建材料失败): "
  | .create_section _ _ _ _ _ => "Error creating section (创建截面失败): "
  | .set_support _ _ _ _ _ _ _ _ => "Error setting support (设置支承失败): "
  | .apply_nodal_force _ _ _ _ _ _ _ _ _ => "Error applying force (施加荷载失败): "
  | .apply_beam_distributed_load _ _ _ _ _ _ =>
    "Error applying distributed load (施加分布荷载失败): "
  | .add_construction_stage _ _ _ _ _ =>
    "Error adding construction stage (添加施工阶段失败): "
  | .configure_analysis _ _ _ _ _ => "Error configuring analysis (配置分析失败): "
  | .validate_model => "Error validating model (模型验证失败): "
  | .get_model_info => "Error getting model info (获取模型信息失败): "
  | .get_analysis_results _ _ _ _ => "Error getting results (获取结果失败): "
  | .create_structure_group _ _ => "Error creating structure group (创建结构组失败): "
  | .create_boundary_group _ => "Error creating boundary group (创建边界组失败): "
  | .create_load_group _ => "Error creating load group (创建荷载组失败): "
  | .list_group_members _ _ => "Error listing group members (查询分组成员失败): "
  | .add_elements_to_group _ _ =>
    "Error adding elements to group (添加单元到结构组失败): "
  | .merge_operation_stage _ => "Error merging stages (合并施工阶段失败): "
  | .create_tendon_property _ _ _ _ _ _ _ =>
    "Error creating tendon property (创建钢束特性失败): "
  | .create_tendon_2d _ _ _ _ _ _ => "Error creating 2D tendon (创建2D钢束失败): "
  | .apply_prestress _ _ _ _ => "Error applying prestress (施加预应力失败): "
  | .get_tendon_info _ => "Error getting tendon info (获取钢束信息失败): "
  | .add_elastic_link _ _ _ _ _ => "Error adding elastic link (添加弹性连接失败): "
  | .add_master_slave_link _ _ _ _ =>
    "Error adding master-slave link (添加主从约束失败): "
  | .add_elastic_support _ _ _ => "Error adding elastic support (添加弹性支承失败): "
  | .save_model_screenshot _ _ => "Error saving screenshot (保存截图失败): "
  | .plot_analysis_result _ _ _ _ _ => "Error plotting result (生成结果云图失败): "
  | .set_view_angle _ _ _ => "Error setting view angle (设置视角失败): "
  | .add_standard_vehicle _ _ _ => "Error adding standard vehicle (添加标准车辆失败): "
  | .add_traffic_lane _ _ _ _ => "Error defining traffic lane (定义行车道失败): "
  | .create_live_load_case _ _ _ _ _ =>
    "Error creating live load case (创建移动荷载工况失败): "
  | .get_live_load_results _ _ _ =>
    "Error getting live load results (获取移动荷载结果失败): "
  | .setup_concrete_check _ _ _ _ =>
    "Error setting up concrete check (创建混凝土检算工况失败): "
  | .add_check_load_combination _ _ _ _ _ =>
    "Error adding load combination (添加荷载组合失败): "
  | .run_concrete_check _ => "Error running concrete check (运行混凝土检算失败): "
  | .add_parametric_reinforcement _ _ _ _ _ _ =>
    "Error adding reinforcement (添加配筋失败): "
  | .create_simple_beam_bridge _ _ _ _ _ _ _ =>
    "Error creating simple beam bridge (创建简支梁桥失败): "
  | .create_continuous_beam_bridge _ _ _ _ _ =>
    "Error creating continuous beam bridge (创建连续梁桥失败): "

/--
One full tool-handler invocation: the whole body runs inside
`try: … except Exception as e: return f"<prefix>{e}"`, so the handler
itself always returns a string.
-/
def runTool (tc : ToolCall) : TProg String :=
  Prog.tryCatch (toolBody tc) (fun e => Prog.pure (toolErrPrefix tc ++ e.msg))

/-- One invocation of a registered MCP prompt function, with arguments. -/
inductive PromptCall where
  | design_simple_beam (span_length beam_height : ℚ) (material : String)
  | design_continuous_beam (spans material : String)
  | check_structure (check_standard : String)
  | construction_stage_analysis

/--
The registered prompt functions of prompts/__init__.py.  Their bodies
are single f-string returns; `register_prompts` does not even receive
the provider.  They are embedded as programs over provider calls so
that "issues no call" is a statement, not a typing accident.
-/
def promptBody : PromptCall → TProg String
  | .design_simple_beam span_length beam_height material =>
    Prog.pure ("You are a bridge structural engineer assistant. Please help design a simple beam bridge\nwith the following parameters:\n\n## Design Parameters (设计参数)\n- Span length (跨径): " ++
      showQ span_length ++ "m\n- Beam height (梁高): " ++ showQ beam_height ++
      "m\n- Material (材料): " ++ material ++
      "\n\n## Workflow Steps (工作流步骤)\n\n1. **Create Material (创建材料)**: Use `create_material` tool to add concrete material " ++
      material ++
      "\n2. **Create Section (创建截面)**: Use `create_section` tool to create the beam cross-section\n3. **Create Nodes (创建节点)**: Use `create_nodes` tool to create support and midspan nodes\n4. **Create Elements (创建单元)**: Use `create_elements` tool to connect nodes with beam elements\n5. **Set Supports (设置支承)**: Use `set_support` tool to add boundary conditions\n   - Left support: pin (铰接) - fix DX, DY, DZ\n   - Right support: roller (滑动) - fix DY, DZ\n6. **Apply Loads (施加荷载)**: Use `apply_nodal_force` or `apply_beam_distributed_load`\n7. **Validate Model (验证模型)**: Use `validate_model` to check for issues\n8. **Configure Analysis (配置分析)**: Use `configure_analysis` to set up the analysis\n9. **Review Results (查看结果)**: Use `get_analysis_results` to check deformation and forces\n\nPlease proceed step by step, explaining each action and its engineering rationale.\n请按步骤进行，解释每个操作及其工程依据。\n")
  | .design_continuous_beam spans material =>
    Prog.pure ("You are a bridge structural engineer assistant. Please help design a continuous beam bridge.\n\n## Design Parameters (设计参数)\n- Span arrangement (跨径布置): " ++
      spans ++ "m\n- Material (材料): " ++ material ++
      "\n\n## Workflow Steps (工作流步骤)\n\n1. **Parse Span Info**: Parse span arrangement \"" ++
      spans ++
      "\" to determine support locations\n2. **Create Material**: Add concrete material " ++
      material ++
      " with creep/shrinkage parameters\n3. **Create Sections**: Create variable depth cross-sections (box girder typical for continuous beams)\n4. **Create Nodes**: Create nodes at supports, quarter-points, and midspan\n5. **Create Elements**: Connect with beam elements, assign tapered sections\n6. **Set Supports**: Apply appropriate boundary conditions at each pier/abutment\n7. **Define Construction Stages**: Set up cantilever construction stages if applicable\n8. **Apply Dead/Live Loads**: Self-weight, secondary dead load, vehicle loads\n9. **Add Prestressing**: Define tendon profiles and apply prestress forces\n10. **Validate & Analyze**: Check model and run staged construction analysis\n11. **Review Results**: Check stresses, deformations at critical sections\n\n请注意连续梁的关键设计要点：跨中和支座处的弯矩分布、预应力筋布置、施工阶段分析。\n")
  | .check_structure check_standard =>
    Prog.pure ("You are a bridge structural engineer assistant. Please help perform structural code checking.\n\n## Check Standard (检算规范): " ++
      check_standard ++
      "\n\n## Workflow Steps (工作流步骤)\n\n1. **Review Model**: First use `get_model_info` to understand the current model\n2. **Review Results**: Use `get_analysis_results` to check critical force/stress values\n3. **Identify Critical Sections**: Determine governing sections based on force envelopes\n4. **Set Up Load Combinations**: Define code-required load combinations\n5. **Configure Check Cases**: Set up concrete/steel check cases per " ++
      check_standard ++
      "\n6. **Add Reinforcement if needed**: Configure reinforcement for concrete members\n7. **Run Check**: Execute structural verification\n8. **Evaluate Results**: Review check results against allowable limits\n\n请确保所有检算工况覆盖了规范 " ++
      check_standard ++ " 要求的所有组合。\n")
  | .construction_stage_analysis =>
    Prog.pure "You are a bridge structural engineer assistant. Please help set up construction stage analysis.\n\n## Workflow Steps (工作流步骤)\n\n1. **Review Model Structure**: Use `get_model_info` to understand the model components\n2. **Define Structure Groups**: Organize elements by construction sequence (按施工顺序组织结构组)\n3. **Define Boundary Groups**: Group boundaries that change during construction\n4. **Define Load Groups**: Group loads by application stage\n5. **Create Construction Stages**: Use `add_construction_stage` to define each stage with:\n   - Duration (时长)\n   - Activated/deactivated structure groups (激活/钝化结构组)\n   - Activated/deactivated boundary conditions (激活/钝化边界条件)\n   - Applied loads (施加荷载)\n   - Temporary loads (临时荷载)\n6. **Configure Creep/Shrinkage**: Enable time-dependent analysis if concrete\n7. **Set Analysis Parameters**: Configure construction stage analysis settings\n8. **Validate**: Run `validate_model` before analysis\n9. **Analyze**: Run the construction stage analysis\n10. **Review Stage Results**: Check results at each critical stage\n\n关键要点：确保施工顺序逻辑正确，龄期设置合理，安装方法选择正确（变形法/无应力法）。\n"

/-- The text a prompt invocation returns (prompt functions have no
`try/except`; their bodies are single returns). -/
def promptText (pc : PromptCall) (o : PCall → Except Exc PyVal) : String :=
  match (promptBody pc o).1 with
  | .ok s => s
  | .error _ => ""

/-- A provider behavior under which `add_material` raises `MATFAIL` and
everything else succeeds (queries return benign values). -/
def c1Oracle : PCall → Except Exc PyVal := fun c =>
  if c.method = "add_material" then .error ⟨.runtimeError, "MATFAIL"⟩
  else if c.method = "get_material_data" then .ok (.list [])
  else if c.method = "get_section_names" then .ok (.list [.int 1])
  else .ok .none

/-- The default-argument invocation of `create_simple_beam_bridge`. -/
def c1Tool : ToolCall :=
  .create_simple_beam_bridge 20 10 "C50" "矩形梁" 1 2 "SW"

/-- The string `create_simple_beam_bridge` returns under `c1Oracle`. -/
def c1Result : String :=
  match (runTool c1Tool c1Oracle).1 with
  | .ok s => s
  | .error _ => ""

/-- A provider behavior with chosen outcomes `rm`/`rs`/`rw` for the
material, section and self-weight steps of the workflow tools, benign
answers elsewhere. -/
def wfOracle (rm rs rw : Except Exc PyVal) : PCall → Except Exc PyVal := fun c =>
  if c.method = "add_material" then rm
  else if c.method = "add_section" then rs
  else if c.method = "add_self_weight" then rw
  else if c.method = "get_material_data" then .ok (.list [])
  else if c.method = "get_section_names" then .ok (.list [])
  else .ok .none

/-- A provider behavior under which `add_nodes` raises `e` and every
other call succeeds. -/
def wfNodesFailOracle (e : Exc) : PCall → Except Exc PyVal := fun c =>
  if c.method = "add_nodes" then .error e
  else if c.method = "get_material_data" then .ok (.list [])
  else if c.method = "get_section_names" then .ok (.list [])
  else .ok .none

/-- A provider oracle whose every call succeeds with `None`. -/
def okOracle : PCall → Except Exc PyVal := fun _ => .ok .none

/-- A provider oracle whose every call raises `boom`. -/
def boomOracle : PCall → Except Exc PyVal := fun _ =>
  .error ⟨.runtimeError, "boom"⟩

/-- A vendor oracle whose every call succeeds with `None`. -/
def vendorOkOracle : VCall → Except Exc PyVal := fun _ => .ok .none

/-- A vendor behavior with one node, one material, no elements, and no
overlaps (used to exercise `validate_model`). -/
def c9Oracle : VCall → Except Exc PyVal := fun c =>
  if c.method = "get_node_data" then .ok (.list [.int 1])
  else if c.method = "get_material_data" then .ok (.list [.int 2])
  else .ok (.list [])

end BridgeMCP

namespace BridgeMCP

open QtModelProvider

/-- `tuple(r)` on a list of Python lists never fails and yields the
tuples, elementwise. -/
theorem tuplesOf_lists (l : List (List PyVal)) :
    tuplesOf (l.map PyVal.list) = .ok (l.map (fun r => PyVal.tuple r)) := by
  induction l with
  | nil => rfl
  | cons r rest ih =>
    simp [tuplesOf, pyToTuple, ih, Bind.bind, Except.bind]

/-- A tool whose body is a single provider call followed by a pure
return leaves exactly that call in the trace, whatever the provider
answers (including an exception swallowed by the outer handler). -/
theorem runTool_single_call_trace (tc : ToolCall) (c : PCall)
    (f : PyVal → String)
    (hbody : toolBody tc = Prog.bind (Prog.call c) (fun v => Prog.pure (f v)))
    (o : PCall → Except Exc PyVal) :
    (runTool tc o).2 = [c] := by
  rw [show runTool tc o = Prog.tryCatch (toolBody tc)
    (fun e => Prog.pure (toolErrPrefix tc ++ e.msg)) o from rfl, hbody]
  cases hoc : o c <;>
    simp [Prog.tryCatch, Prog.bind, Prog.call, Prog.pure, hoc]

/--
C3: while the provider is unavailable (`is_available()` false because
the constructor's import/connection attempt failed), every
`QtModelProvider` operation other than `name`, `version` and
`is_available` raises a `RuntimeError` carrying the recorded
unavailable reason, and issues no vendor `mdb`/`odb` call at all.
-/
theorem C3_unavailable_raises_before_vendor (st : QtModelProvider.State)
    (op : QtModelProvider.Op) (o : VCall → Except Exc PyVal)
    (h : st.available = false) :
    QtModelProvider.run st op o =
      (.error ⟨.runtimeError,
        "qtmodel provider unavailable: " ++ st.unavailable_reason⟩, []) := by
  have hreq : require_available st = Prog.fail ⟨.runtimeError,
      "qtmodel provider unavailable: " ++ st.unavailable_reason⟩ := by
    simp [require_available, h]
  show Prog.bind (require_available st) (fun _ => body st op) o = _
  rw [hreq]
  rfl

/--
C3 witness: the unavailable provider refuses `get_model_summary` with
the recorded reason and an empty vendor trace.
-/
theorem C3_witness :
    QtModelProvider.run ⟨false, "no backend"⟩ .get_model_summary vendorOkOracle =
      (.error ⟨.runtimeError, "qtmodel provider unavailable: no backend"⟩, []) :=
  C3_unavailable_raises_before_vendor ⟨false, "no backend"⟩ .get_model_summary
    vendorOkOracle rfl

/--
C2 counterexample: with the backend available, invoking the
structural-checking operation `add_concrete_check_case` (the provider
call behind the `setup_concrete_check` tool) issues no vendor call at
all — in particular none against `cdb` — and instead raises
`NotImplementedError`; so the adapter does not translate checking
invocations into `cdb` calls.
-/
theorem C2_counterexample :
    (¬ ∃ c ∈ (QtModelProvider.run ⟨true, ""⟩
        (.add_concrete_check_case "检算1" 1 3 "默认结构组") vendorOkOracle).2,
      c.obj = VObj.cdb) ∧
    (QtModelProvider.run ⟨true, ""⟩
        (.add_concrete_check_case "检算1" 1 3 "默认结构组") vendorOkOracle).1 =
      .error ⟨.notImplementedError, cdbNotImplementedMsg⟩ := by
  constructor
  · have h : (QtModelProvider.run ⟨true, ""⟩
        (.add_concrete_check_case "检算1" 1 3 "默认结构组") vendorOkOracle).2 =
        [] := rfl
    rw [h]
    simp
  · rfl

/--
C2 amended: each of the four structural-checking operations
(`add_check_load_combine`, `solve_concrete_check`,
`add_concrete_check_case`, `add_parameter_reinforcement`), invoked
while the backend is available, raises `NotImplementedError` (saying
structural checking is not yet supported) and performs no vendor call —
the provider holds no `cdb` object and never constructs a `cdb` call.
-/
theorem C2_amended_checking_not_implemented (st : QtModelProvider.State)
    (o : VCall → Except Exc PyVal) (h : st.available = true)
    (name group_name : String) (standard kind structure_type sec_id : Int)
    (kw : List (String × PyVal)) :
    QtModelProvider.run st (.add_check_load_combine name standard kind kw) o =
      (.error ⟨.notImplementedError, cdbNotImplementedMsg⟩, []) ∧
    QtModelProvider.run st (.solve_concrete_check name) o =
      (.error ⟨.notImplementedError, cdbNotImplementedMsg⟩, []) ∧
    QtModelProvider.run st
        (.add_concrete_check_case name standard structure_type group_name) o =
      (.error ⟨.notImplementedError, cdbNotImplementedMsg⟩, []) ∧
    QtModelProvider.run st (.add_parameter_reinforcement sec_id kw) o =
      (.error ⟨.notImplementedError, cdbNotImplementedMsg⟩, []) := by
  have hreq : require_available st = Prog.pure () := by
    simp [require_available, h]
  refine ⟨?_, ?_, ?_, ?_⟩ <;>
    · show Prog.bind (require_available st) _ o = _
      rw [hreq]
      rfl

/--
C2 amended witness: the concrete check-case creation raises
`NotImplementedError` with an empty vendor trace.
-/
theorem C2_amended_witness :
    QtModelProvider.run ⟨true, ""⟩ (.solve_concrete_check "检算1")
        vendorOkOracle =
      (.error ⟨.notImplementedError, cdbNotImplementedMsg⟩, []) :=
  (C2_amended_checking_not_implemented ⟨true, ""⟩ vendorOkOracle rfl "检算1" ""
    1 3 3 1 []).2.1

/-- While the provider is available, a provider method runs exactly its
body (the `_require_available` guard passes and adds no vendor call). -/
theorem run_avail (st : QtModelProvider.State) (op : QtModelProvider.Op)
    (o : VCall → Except Exc PyVal) (h : st.available = true) :
    QtModelProvider.run st op o = QtModelProvider.body st op o := by
  show Prog.bind (require_available st) (fun _ => body st op) o = _
  simp [require_available, h, Prog.bind, Prog.pure]

/--
C4: `get_node_data`/`get_element_data` reshape whatever the vendor
query returns into a list — `[r]` for a dict `r`, the list itself for a
list, `[]` for anything else — and `get_model_summary` counts a vendor
result as 0 whenever it is not a list.
-/
theorem C4_vendor_result_reshaping (st : QtModelProvider.State)
    (o : VCall → Except Exc PyVal) (h : st.available = true) :
    (∀ (ids : Option PyVal) (v : PyVal),
      o ⟨.odb, "get_node_data",
          (match ids with | some x => [("ids", x)] | Option.none => [])⟩ = .ok v →
      QtModelProvider.run st (.get_node_data ids) o =
        (.ok (reshapeQuery v),
         [⟨.odb, "get_node_data",
           (match ids with | some x => [("ids", x)] | Option.none => [])⟩])) ∧
    (∀ (ids : Option PyVal) (v : PyVal),
      o ⟨.odb, "get_element_data",
          (match ids with | some x => [("ids", x)] | Option.none => [])⟩ = .ok v →
      QtModelProvider.run st (.get_element_data ids) o =
        (.ok (reshapeQuery v),
         [⟨.odb, "get_element_data",
           (match ids with | some x => [("ids", x)] | Option.none => [])⟩])) ∧
    (∀ d : List (String × PyVal), reshapeQuery (.dict d) = .list [.dict d]) ∧
    (∀ l : List PyVal, reshapeQuery (.list l) = .list l) ∧
    (∀ v : PyVal, (∀ d, v ≠ .dict d) → (∀ l, v ≠ .list l) →
      reshapeQuery v = .list []) ∧
    (∀ nv ev mv sv stv lcv gv bv : PyVal,
      o ⟨.odb, "get_node_data", []⟩ = .ok nv →
      o ⟨.odb, "get_element_data", []⟩ = .ok ev →
      o ⟨.odb, "get_material_data", []⟩ = .ok mv →
      o ⟨.odb, "get_section_names", []⟩ = .ok sv →
      o ⟨.odb, "get_stage_names", []⟩ = .ok stv →
      o ⟨.odb, "get_load_case_names", []⟩ = .ok lcv →
      o ⟨.odb, "get_structure_group_names", []⟩ = .ok gv →
      o ⟨.odb, "get_boundary_group_names", []⟩ = .ok bv →
      (QtModelProvider.run st .get_model_summary o).1 = .ok (.dict
        [("node_count", lenIfList nv),
         ("element_count", lenIfList ev),
         ("material_count", lenIfList mv),
         ("section_count", lenIfList sv),
         ("stage_count", lenIfList stv),
         ("load_case_count", lenIfList lcv),
         ("structure_group_count", lenIfList gv),
         ("boundary_group_count", lenIfList bv)])) ∧
    (∀ v : PyVal, (∀ l, v ≠ .list l) → lenIfList v = .int 0) := by
  refine ⟨?_, ?_, fun d => rfl, fun l => rfl, ?_, ?_, ?_⟩
  · intro ids v hv
    rw [run_avail st _ o h]
    cases ids <;>
      simp [QtModelProvider.body, nodeElemQuery, odbCall, Prog.bind_eq,
        Prog.bind, Prog.call, Prog.pure, hv]
  · intro ids v hv
    rw [run_avail st _ o h]
    cases ids <;>
      simp [QtModelProvider.body, nodeElemQuery, odbCall, Prog.bind_eq,
        Prog.bind, Prog.call, Prog.pure, hv]
  · intro v hd hl
    cases v with
    | dict d => exact absurd rfl (hd d)
    | list l => exact absurd rfl (hl l)
    | none => rfl
    | bool _ => rfl
    | int _ => rfl
    | rat _ => rfl
    | str _ => rfl
    | tuple _ => rfl
  · intro nv ev mv sv stv lcv gv bv h1 h2 h3 h4 h5 h6 h7 h8
    rw [run_avail st _ o h]
    simp [QtModelProvider.body, summaryBody, odbCall, Prog.bind_eq, Prog.bind,
      Prog.call, Prog.pure, h1, h2, h3, h4, h5, h6, h7, h8]
  · intro v hl
    cases v with
    | list l => exact absurd rfl (hl l)
    | none => rfl
    | bool _ => rfl
    | int _ => rfl
    | rat _ => rfl
    | str _ => rfl
    | tuple _ => rfl
    | dict _ => rfl

/--
C4 witness: with the vendor returning a one-entry dict for nodes, the
provider returns the singleton list, and with a non-list (None)
elements result the summary counts 0 elements.
-/
theorem C4_witness :
    QtModelProvider.run ⟨true, ""⟩ (.get_node_data (some (.str "1to3")))
        (fun c => if c.method = "get_node_data"
          then .ok (.dict [("id", .int 1)]) else .ok .none) =
      (.ok (.list [.dict [("id", .int 1)]]),
       [⟨.odb, "get_node_data", [("ids", .str "1to3")]⟩]) ∧
    lenIfList .none = .int 0 := by
  constructor
  · exact (C4_vendor_result_reshaping ⟨true, ""⟩
      (fun c => if c.method = "get_node_data"
        then .ok (.dict [("id", .int 1)]) else .ok .none) rfl).1
      (some (.str "1to3")) (.dict [("id", .int 1)]) rfl
  · exact (C4_vendor_result_reshaping ⟨true, ""⟩
      (fun c => if c.method = "get_node_data"
        then .ok (.dict [("id", .int 1)]) else .ok .none) rfl).2.2.2.2.2.2
      .none (fun l hl => by cases hl)

/--
C7: a `get_analysis_results` invocation with a result type outside
deformation/force/stress/reaction returns the message naming the
available types without issuing any provider call; and `plot_result`
on an available provider raises a `ValueError` listing the nine
supported plot types, issuing no vendor call, whenever the requested
type is not one of them.
-/
theorem C7_unknown_result_type_rejected :
    (∀ (o : PCall → Except Exc PyVal) (rt : String) (ids : PyVal) (sid : Int)
        (cn : String),
      rt ≠ "deformation" → rt ≠ "force" → rt ≠ "stress" → rt ≠ "reaction" →
      runTool (.get_analysis_results rt ids sid cn) o =
        (.ok ("Unknown result_type '" ++ rt ++
          "'. Available: deformation, force, stress, reaction"), [])) ∧
    (∀ (st : QtModelProvider.State) (o : VCall → Except Exc PyVal)
        (rt fp : String) (kw : List (String × PyVal)),
      st.available = true → plotMethods.lookup rt = Option.none →
      QtModelProvider.run st (.plot_result rt fp kw) o =
        (.error ⟨.valueError, plotUnknownMsg rt⟩, [])) := by
  constructor
  · intro o rt ids sid cn h1 h2 h3 h4
    simp [runTool, Prog.tryCatch, toolBody, Tools.get_analysis_results,
      Prog.bind_eq, Prog.bind, Prog.pure, h1, h2, h3, h4]
  · intro st o rt fp kw h hlk
    rw [run_avail st _ o h]
    simp [QtModelProvider.body, plotResultBody, hlk, Prog.fail]

/--
C7 witness: result type `"bogus"` is rejected by both paths with no
call issued.
-/
theorem C7_witness :
    runTool (.get_analysis_results "bogus" (.int 1) (-1) "") okOracle =
      (.ok ("Unknown result_type 'bogus'. Available: deformation, force, stress, reaction"),
       []) ∧
    QtModelProvider.run ⟨true, ""⟩ (.plot_result "bogus" "f.png" [])
        vendorOkOracle =
      (.error ⟨.valueError, plotUnknownMsg "bogus"⟩, []) :=
  ⟨C7_unknown_result_type_rejected.1 okOracle "bogus" (.int 1) (-1) ""
      (by decide) (by decide) (by decide) (by decide),
   C7_unknown_result_type_rejected.2 ⟨true, ""⟩ vendorOkOracle "bogus" "f.png" []
      rfl rfl⟩

/--
C10: `get_live_load_results` always queries the vendor with
`stage_id = -1` and the live-load case name; `"stress"` maps to the
element-stress query, `"deformation"` to the deformation query, and
every other result type — `"force"` or any unrecognized string — maps
silently to the element-force query.
-/
theorem C10_live_load_mapping (st : QtModelProvider.State)
    (o : VCall → Except Exc PyVal) (cn rt : String) (ids : PyVal)
    (h : st.available = true) :
    (rt = "stress" →
      QtModelProvider.run st (.get_live_load_results cn rt ids) o =
        (o ⟨.odb, "get_element_stress",
            [("ids", ids), ("stage_id", .int (-1)), ("case_name", .str cn)]⟩,
         [⟨.odb, "get_element_stress",
            [("ids", ids), ("stage_id", .int (-1)), ("case_name", .str cn)]⟩])) ∧
    (rt = "deformation" →
      QtModelProvider.run st (.get_live_load_results cn rt ids) o =
        (o ⟨.odb, "get_deformation",
            [("ids", ids), ("stage_id", .int (-1)), ("case_name", .str cn)]⟩,
         [⟨.odb, "get_deformation",
            [("ids", ids), ("stage_id", .int (-1)), ("case_name", .str cn)]⟩])) ∧
    (rt ≠ "stress" → rt ≠ "deformation" →
      QtModelProvider.run st (.get_live_load_results cn rt ids) o =
        (o ⟨.odb, "get_element_force",
            [("ids", ids), ("stage_id", .int (-1)), ("case_name", .str cn)]⟩,
         [⟨.odb, "get_element_force",
            [("ids", ids), ("stage_id", .int (-1)), ("case_name", .str cn)]⟩])) := by
  refine ⟨?_, ?_, ?_⟩
  · intro hrt
    subst hrt
    rw [run_avail st _ o h]
    simp [QtModelProvider.body, liveLoadBody, odbCall, Prog.call]
  · intro hrt
    subst hrt
    rw [run_avail st _ o h]
    simp [QtModelProvider.body, liveLoadBody, odbCall, Prog.call]
  · intro h1 h2
    rw [run_avail st _ o h]
    by_cases hf : rt = "force" <;>
      simp [QtModelProvider.body, liveLoadBody, odbCall, Prog.call, hf, h1, h2]

/-- The stepwise error accumulation of `validate_model` equals the
concatenation of its three independent checks. -/
theorem errSteps (c1 c2 c3 : Bool) (a b c : String) :
    (if c3 then
      (if c2 then (if c1 then [a] else []) ++ [b]
        else (if c1 then [a] else [])) ++ [c]
      else (if c2 then (if c1 then [a] else []) ++ [b]
        else (if c1 then [a] else []))) =
    (if c1 then [a] else []) ++ (if c2 then [b] else []) ++
      (if c3 then [c] else []) := by
  by_cases h1 : c1 <;> by_cases h2 : c2 <;> by_cases h3 : c3 <;>
    simp [h1, h2, h3]

/--
C9: `validate_model` returns a dict whose `is_valid` is true exactly
when `errors` is empty; `errors` is empty exactly when the node,
element and material counts of the accompanying summary are all
nonzero; and vendor-reported overlapping nodes/elements contribute
only to `warnings` — the `errors` list (hence `is_valid`) does not
depend on them.
-/
theorem C9_validate_model (st : QtModelProvider.State)
    (o : VCall → Except Exc PyVal) (h : st.available = true)
    (onl oel : List PyVal) (nv ev mv sv stv lcv gv bv : PyVal)
    (h1 : o ⟨.odb, "get_overlap_nodes", []⟩ = .ok (.list onl))
    (h2 : o ⟨.odb, "get_overlap_elements", []⟩ = .ok (.list oel))
    (h3 : o ⟨.odb, "get_node_data", []⟩ = .ok nv)
    (h4 : o ⟨.odb, "get_element_data", []⟩ = .ok ev)
    (h5 : o ⟨.odb, "get_material_data", []⟩ = .ok mv)
    (h6 : o ⟨.odb, "get_section_names", []⟩ = .ok sv)
    (h7 : o ⟨.odb, "get_stage_names", []⟩ = .ok stv)
    (h8 : o ⟨.odb, "get_load_case_names", []⟩ = .ok lcv)
    (h9 : o ⟨.odb, "get_structure_group_names", []⟩ = .ok gv)
    (h10 : o ⟨.odb, "get_boundary_group_names", []⟩ = .ok bv) :
    ∃ errors warnings : List String,
      errors =
        (if pyEqInt (lenIfList nv) 0 then ["Model has no nodes (模型无节点)"]
          else []) ++
        (if pyEqInt (lenIfList ev) 0 then ["Model has no elements (模型无单元)"]
          else []) ++
        (if pyEqInt (lenIfList mv) 0 then ["Model has no materials (模型无材料)"]
          else []) ∧
      warnings =
        (if !onl.isEmpty then
          ["Found " ++ toString onl.length ++
            " groups of overlapping nodes (发现 " ++ toString onl.length ++
            " 组重合节点): " ++ pyStr (.list (onl.take 5)) ++ "..."]
          else []) ++
        (if !oel.isEmpty then
          ["Found " ++ toString oel.length ++
            " groups of overlapping elements (发现 " ++ toString oel.length ++
            " 组重合单元): " ++ pyStr (.list (oel.take 5)) ++ "..."]
          else []) ∧
      (QtModelProvider.run st .validate_model o).1 = .ok (.dict
        [("is_valid", .bool errors.isEmpty),
         ("errors", .list (errors.map PyVal.str)),
         ("warnings", .list (warnings.map PyVal.str)),
         ("summary", .dict
           [("node_count", lenIfList nv),
            ("element_count", lenIfList ev),
            ("material_count", lenIfList mv),
            ("section_count", lenIfList sv),
            ("stage_count", lenIfList stv),
            ("load_case_count", lenIfList lcv),
            ("structure_group_count", lenIfList gv),
            ("boundary_group_count", lenIfList bv)])]) ∧
      (errors.isEmpty = true ↔
        (pyEqInt (lenIfList nv) 0 = false ∧ pyEqInt (lenIfList ev) 0 = false ∧
         pyEqInt (lenIfList mv) 0 = false)) := by
  have hsum : QtModelProvider.get_model_summary st o =
      (.ok (.dict
        [("node_count", lenIfList nv),
         ("element_count", lenIfList ev),
         ("material_count", lenIfList mv),
         ("section_count", lenIfList sv),
         ("stage_count", lenIfList stv),
         ("load_case_count", lenIfList lcv),
         ("structure_group_count", lenIfList gv),
         ("boundary_group_count", lenIfList bv)]),
       [⟨.odb, "get_node_data", []⟩, ⟨.odb, "get_element_data", []⟩,
        ⟨.odb, "get_material_data", []⟩, ⟨.odb, "get_section_names", []⟩,
        ⟨.odb, "get_stage_names", []⟩, ⟨.odb, "get_load_case_names", []⟩,
        ⟨.odb, "get_structure_group_names", []⟩,
        ⟨.odb, "get_boundary_group_names", []⟩]) := by
    simp [QtModelProvider.get_model_summary, require_available, h, summaryBody,
      odbCall, Prog.bind_eq, Prog.bind, Prog.call, Prog.pure, h3, h4, h5, h6,
      h7, h8, h9, h10]
  have g1 : pyGetItemStr (.dict
      [("node_count", lenIfList nv), ("element_count", lenIfList ev),
       ("material_count", lenIfList mv), ("section_count", lenIfList sv),
       ("stage_count", lenIfList stv), ("load_case_count", lenIfList lcv),
       ("structure_group_count", lenIfList gv),
       ("boundary_group_count", lenIfList bv)]) "node_count" =
      .ok (lenIfList nv) := rfl
  have g2 : pyGetItemStr (.dict
      [("node_count", lenIfList nv), ("element_count", lenIfList ev),
       ("material_count", lenIfList mv), ("section_count", lenIfList sv),
       ("stage_count", lenIfList stv), ("load_case_count", lenIfList lcv),
       ("structure_group_count", lenIfList gv),
       ("boundary_group_count", lenIfList bv)]) "element_count" =
      .ok (lenIfList ev) := rfl
  have g3 : pyGetItemStr (.dict
      [("node_count", lenIfList nv), ("element_count", lenIfList ev),
       ("material_count", lenIfList mv), ("section_count", lenIfList sv),
       ("stage_count", lenIfList stv), ("load_case_count", lenIfList lcv),
       ("structure_group_count", lenIfList gv),
       ("boundary_group_count", lenIfList bv)]) "material_count" =
      .ok (lenIfList mv) := rfl
  refine ⟨_, _, rfl, rfl, ?_, ?_⟩
  · rw [run_avail st _ o h]
    by_cases hn : onl.isEmpty <;> by_cases he : oel.isEmpty <;>
      simp [QtModelProvider.body, validateBody, Prog.bind_eq, Prog.bind,
        Prog.call, odbCall, Prog.lift, Prog.pure, h1, h2, hsum, PyVal.truthy,
        hn, he, pyLen, pySlice5, g1, g2, g3, errSteps]
  · by_cases e1 : pyEqInt (lenIfList nv) 0 <;>
      by_cases e2 : pyEqInt (lenIfList ev) 0 <;>
      by_cases e3 : pyEqInt (lenIfList mv) 0 <;>
      simp [e1, e2, e3]

/--
C9 witness: with one node, one material, no elements and no overlaps,
`validate_model` reports exactly the missing-elements error, and the
emptiness equivalence holds at these counts.
-/
theorem C9_witness :
    ∃ errors warnings : List String,
      errors =
        (if pyEqInt (lenIfList (.list [.int 1])) 0 then
          ["Model has no nodes (模型无节点)"] else []) ++
        (if pyEqInt (lenIfList (.list ([] : List PyVal))) 0 then
          ["Model has no elements (模型无单元)"] else []) ++
        (if pyEqInt (lenIfList (.list [.int 2])) 0 then
          ["Model has no materials (模型无材料)"] else []) ∧
      warnings =
        (if !([] : List PyVal).isEmpty then
          ["Found " ++ toString ([] : List PyVal).length ++
            " groups of overlapping nodes (发现 " ++
            toString ([] : List PyVal).length ++ " 组重合节点): " ++
            pyStr (.list (([] : List PyVal).take 5)) ++ "..."]
          else []) ++
        (if !([] : List PyVal).isEmpty then
          ["Found " ++ toString ([] : List PyVal).length ++
            " groups of overlapping elements (发现 " ++
            toString ([] : List PyVal).length ++ " 组重合单元): " ++
            pyStr (.list (([] : List PyVal).take 5)) ++ "..."]
          else []) ∧
      (QtModelProvider.run ⟨true, ""⟩ .validate_model c9Oracle).1 = .ok (.dict
        [("is_valid", .bool errors.isEmpty),
         ("errors", .list (errors.map PyVal.str)),
         ("warnings", .list (warnings.map PyVal.str)),
         ("summary", .dict
           [("node_count", lenIfList (.list [.int 1])),
            ("element_count", lenIfList (.list ([] : List PyVal))),
            ("material_count", lenIfList (.list [.int 2])),
            ("section_count", lenIfList (.list ([] : List PyVal))),
            ("stage_count", lenIfList (.list ([] : List PyVal))),
            ("load_case_count", lenIfList (.list ([] : List PyVal))),
            ("structure_group_count", lenIfList (.list ([] : List PyVal))),
            ("boundary_group_count", lenIfList (.list ([] : List PyVal)))])]) ∧
      (errors.isEmpty = true ↔
        (pyEqInt (lenIfList (.list [.int 1])) 0 = false ∧
         pyEqInt (lenIfList (.list ([] : List PyVal))) 0 = false ∧
         pyEqInt (lenIfList (.list [.int 2])) 0 = false)) :=
  C9_validate_model ⟨true, ""⟩ c9Oracle rfl [] [] (.list [.int 1])
    (.list []) (.list [.int 2]) (.list []) (.list []) (.list []) (.list [])
    (.list []) rfl rfl rfl rfl rfl rfl rfl rfl rfl rfl

/--
C6: `set_support` forwards `boundary_info` as the six flags in the
exact order [dx, dy, dz, rx, ry, rz] and forwards `group_name` if and
only if it is non-empty; `add_construction_stage` converts each inner
list of `active_structures`/`active_boundaries`/`active_loads` to a
tuple before forwarding.
-/
theorem C6_marshalling :
    (∀ (o : PCall → Except Exc PyVal) (nid : PyVal) (dx dy dz rx ry rz : Bool)
        (g : String),
      (runTool (.set_support nid dx dy dz rx ry rz g) o).2 =
        [⟨"add_general_support",
          ("node_id", nid) ::
          ("boundary_info", .list [.bool dx, .bool dy, .bool dz, .bool rx,
            .bool ry, .bool rz]) ::
          (if g ≠ "" then [("group_name", .str g)] else [])⟩]) ∧
    (∀ (o : PCall → Except Exc PyVal) (n : String) (d : ℚ)
        (l1 l2 l3 : List (List PyVal)),
      l1 ≠ [] → l2 ≠ [] → l3 ≠ [] →
      (runTool (.add_construction_stage n d (some l1) (some l2) (some l3)) o).2 =
        [⟨"add_construction_stage",
          ("name", .str n) :: ("duration", .rat d) ::
          ([("active_structures", .list (l1.map (fun r => PyVal.tuple r)))] ++
           [("active_boundaries", .list (l2.map (fun r => PyVal.tuple r)))] ++
           [("active_loads", .list (l3.map (fun r => PyVal.tuple r)))])⟩]) := by
  constructor
  · intro o nid dx dy dz rx ry rz g
    exact runTool_single_call_trace (.set_support nid dx dy dz rx ry rz g)
      ⟨"add_general_support",
        ("node_id", nid) ::
        ("boundary_info", .list [.bool dx, .bool dy, .bool dz, .bool rx,
          .bool ry, .bool rz]) ::
        (if g ≠ "" then [("group_name", .str g)] else [])⟩
      (fun _ => "Successfully set support on node(s) " ++ pyStr nid ++
        " (成功设置支承)")
      rfl o
  · intro o n d l1 l2 l3 h1 h2 h3
    apply runTool_single_call_trace _ _
      (fun _ => "Successfully added construction stage '" ++ n ++
        "' (成功添加施工阶段 '" ++ n ++ "')")
    show Tools.add_construction_stage n d (some l1) (some l2) (some l3) = _
    simp only [Tools.add_construction_stage, List.isEmpty_eq_true, h1, h2, h3,
      if_false, tuplesOf_lists, Prog.bind_eq, Prog.pure_eq]
    rfl

/--
C6 witness: a concrete `set_support` call forwards the ordered flags
with the group name, and a concrete `add_construction_stage` call
forwards tuples.
-/
theorem C6_witness :
    (runTool (.set_support (.int 7) true false true false true false "G1")
        okOracle).2 =
      [⟨"add_general_support",
        ("node_id", .int 7) ::
        ("boundary_info", .list [.bool true, .bool false, .bool true,
          .bool false, .bool true, .bool false]) ::
        (if "G1" ≠ "" then [("group_name", .str "G1")] else [])⟩] ∧
    (runTool (.add_construction_stage "CS1" 10 (some [[.str "G1", .int 5]])
        (some [[.str "B1", .int 0]]) (some [[.str "L1", .int 1]])) okOracle).2 =
      [⟨"add_construction_stage",
        ("name", .str "CS1") :: ("duration", .rat 10) ::
        ([("active_structures",
            .list ([[.str "G1", .int 5]].map (fun r => PyVal.tuple r)))] ++
         [("active_boundaries",
            .list ([[.str "B1", .int 0]].map (fun r => PyVal.tuple r)))] ++
         [("active_loads",
            .list ([[.str "L1", .int 1]].map (fun r => PyVal.tuple r)))])⟩] :=
  ⟨C6_marshalling.1 okOracle (.int 7) true false true false true false "G1",
   C6_marshalling.2 okOracle "CS1" 10 [[.str "G1", .int 5]] [[.str "B1", .int 0]]
     [[.str "L1", .int 1]] (by simp) (by simp) (by simp)⟩

/--
C8: every registered prompt function is pure — it issues no provider
call, and two invocations with equal arguments (the same `PromptCall`)
return equal strings whatever the provider would have answered.
-/
theorem C8_prompts_pure (pc : PromptCall)
    (o1 o2 : PCall → Except Exc PyVal) :
    (promptBody pc o1).2 = [] ∧ promptText pc o1 = promptText pc o2 := by
  cases pc <;> simp [promptBody, promptText, Prog.pure]

set_option maxRecDepth 100000

/--
C1 counterexample: in `create_simple_beam_bridge`, the underlying
`add_material` provider call raises `MATFAIL`, yet the handler returns
the success report — a string that does not contain the exception's
message — because the material step's inner `try/except` swallows the
exception; so it is not the case that every tool handler turns every
provider-call exception into a string containing its message.
-/
theorem C1_counterexample :
    c1Oracle ⟨"add_material",
        [("name", .str "C50"), ("mat_type", .int 1), ("standard", .int 1),
         ("database", .str "C50")]⟩ = .error ⟨.runtimeError, "MATFAIL"⟩ ∧
    (runTool c1Tool c1Oracle).2.map PCall.method =
      ["add_material", "add_section", "add_nodes", "get_material_data",
       "get_section_names", "add_elements", "add_general_support",
       "add_general_support", "add_self_weight"] ∧
    (runTool c1Tool c1Oracle).1 = .ok c1Result ∧
    strIsPrefixOfB "✅ Simple beam bridge created successfully!" c1Result = true ∧
    strContainsB c1Result "MATFAIL" = false :=
  ⟨rfl, rfl, rfl, rfl, rfl⟩

/--
C1 amended: every registered tool handler returns normally with a
string for every provider behavior (no exception propagates out); and
whenever the handler body's exception reaches the handler's outer
`try/except` — that is, whenever it is not swallowed by an inner
`try/except` of the workflow or screenshot steps — the returned string
is the handler's error prefix followed by the exception's message, and
therefore contains that message.
-/
theorem C1_amended_handlers_never_raise (tc : ToolCall)
    (o : PCall → Except Exc PyVal) :
    (∃ s, (runTool tc o).1 = .ok s) ∧
    (∀ (e : Exc) (t : List PCall), toolBody tc o = (.error e, t) →
      (runTool tc o).1 = .ok (toolErrPrefix tc ++ e.msg) ∧
      strContainsB (toolErrPrefix tc ++ e.msg) e.msg = true) := by
  have hrt : runTool tc o = Prog.tryCatch (toolBody tc)
      (fun e => Prog.pure (toolErrPrefix tc ++ e.msg)) o := rfl
  cases htb : toolBody tc o with
  | mk r t =>
    cases r with
    | ok a =>
      refine ⟨⟨a, ?_⟩, ?_⟩
      · rw [hrt]
        simp [Prog.tryCatch, htb]
      · intro e t2 heq
        injection heq with ha hb
        cases ha
    | error e =>
      refine ⟨⟨toolErrPrefix tc ++ e.msg, ?_⟩, ?_⟩
      · rw [hrt]
        simp [Prog.tryCatch, htb, Prog.pure]
      · intro e2 t2 heq
        injection heq with ha hb
        injection ha with he
        subst he
        refine ⟨?_, strContainsB_append_right _ _⟩
        rw [hrt]
        simp [Prog.tryCatch, htb, Prog.pure]

/--
C1 amended witness: under a provider whose every call raises `boom`,
`create_boundary_group` still returns a string — its error prefix
followed by `boom` — and that string contains `boom`.
-/
theorem C1_amended_witness :
    (∃ s, (runTool (.create_boundary_group "BG1") boomOracle).1 = .ok s) ∧
    (runTool (.create_boundary_group "BG1") boomOracle).1 =
      .ok ("Error creating boundary group (创建边界组失败): " ++ "boom") ∧
    strContainsB ("Error creating boundary group (创建边界组失败): " ++ "boom")
      "boom" = true := by
  have h := C1_amended_handlers_never_raise (.create_boundary_group "BG1")
    boomOracle
  have h2 := h.2 ⟨.runtimeError, "boom"⟩
    [⟨"add_boundary_group", [("name", .str "BG1")]⟩] rfl
  exact ⟨h.1, h2.1, h2.2⟩

/--
C5: in both workflow tools, exceptions from the material-creation,
section-creation and self-weight steps are swallowed (any combination
of their outcomes still yields the success report when the later calls
succeed), while an exception from a later call — here `add_nodes` —
makes the workflow return the error string carrying that exception's
message.
-/
theorem C5_workflow_swallowing :
    (∀ rm rs rw : Except Exc PyVal,
      ∃ s, (runTool (.create_simple_beam_bridge 20 10 "C50" "矩形梁" 1 2
          "SW") (wfOracle rm rs rw)).1 = .ok s ∧
        strIsPrefixOfB "✅ Simple beam bridge created successfully!" s = true) ∧
    (∀ e : Exc,
      (runTool (.create_simple_beam_bridge 20 10 "C50" "矩形梁" 1 2 "SW")
          (wfNodesFailOracle e)).1 =
        .ok ("Error creating simple beam bridge (创建简支梁桥失败): " ++ e.msg)) ∧
    (∀ rm rw : Except Exc PyVal,
      ∃ s, (runTool (.create_continuous_beam_bridge Option.none 8 "C50" "箱梁截面"
          "SW") (wfOracle rm (.ok .none) rw)).1 = .ok s ∧
        strIsPrefixOfB "✅ Continuous beam bridge created!" s = true) ∧
    (∀ e : Exc,
      (runTool (.create_continuous_beam_bridge Option.none 8 "C50" "箱梁截面"
          "SW") (wfNodesFailOracle e)).1 =
        .ok ("Error creating continuous beam bridge (创建连续梁桥失败): " ++
          e.msg)) := by
  refine ⟨?_, ?_, ?_, ?_⟩
  · intro rm rs rw
    rcases rm with e1 | v1 <;> rcases rs with e2 | v2 <;> rcases rw with e3 | v3 <;>
      exact ⟨_, rfl, rfl⟩
  · intro e
    rfl
  · intro rm rw
    rcases rm with e1 | v1 <;> rcases rw with e3 | v3 <;> exact ⟨_, rfl, rfl⟩
  · intro e
    rfl

/--
C10 witness: an unrecognized result type (`"weird"`) is routed to the
element-force query with `stage_id = -1`.
-/
theorem C10_witness :
    QtModelProvider.run ⟨true, ""⟩
        (.get_live_load_results "活载" "weird" (.str "1to5")) vendorOkOracle =
      (vendorOkOracle ⟨.odb, "get_element_force",
          [("ids", .str "1to5"), ("stage_id", .int (-1)),
           ("case_name", .str "活载")]⟩,
       [⟨.odb, "get_element_force",
          [("ids", .str "1to5"), ("stage_id", .int (-1)),
           ("case_name", .str "活载")]⟩]) :=
  (C10_live_load_mapping ⟨true, ""⟩ vendorOkOracle "活载" "weird" (.str "1to5")
    rfl).2.2 (by decide) (by decide)

end BridgeMCP
